import Mathlib

/-!
Verification development for the semantic-analysis core of the boa3
compiler (type analyser, operation registry, type lattice, symbol
resolver, diagnostic accumulation) and for the VM opcode helpers.

The Lean definitions below are a shallow embedding of the Python
sources under `src/boa3`.  Python's dynamic dispatch is modelled with
inductive types, its exceptions with an explicit `Except`-style result,
and the analyser's in-place mutation of AST operator slots with visit
functions that return the rewritten node.  Files of the repository that
are referenced but not provided (the operation registry `binaryop.py` /
`unaryop.py`, the type registry `type.py`, the byte helper `Integer.py`)
are modelled from the specification; each such definition carries a doc
comment starting with `Modelled from the spec:`.
-/

set_option maxRecDepth 4096

namespace Boa3

/-- Source coordinates carried by every AST node (`lineno`, `col_offset`). -/
structure Pos where
  line : Nat
  col : Nat
deriving DecidableEq, Repr

/-- The closed set of ABI tags (`boa3/neo/vm/type/AbiType`), used by
`IType.abi_type`. -/
inductive AbiType where
  | Integer | Boolean | String | ByteArray | Array | Map | InteropInterface | Any
deriving DecidableEq, Repr

/-- The built-in type lattice: descriptors of `boa3/model/type`.  The spec's
primitives (`int`, `bool`, `str`, `none`) plus the parameterised sequence
kind carrying a declared value type and a declared valid key type.
Descriptors are interned singletons in the source; structural equality on
this inductive coincides with the identifier-based equality the spec
prescribes. -/
inductive IType where
  | int
  | bool
  | str
  | noneT
  | sequence (value_type : IType) (valid_key : IType)
deriving DecidableEq, Repr

/-- The name identifier of each type (`IType.identifier`), matching the
stable boundary strings of the spec. -/
def IType.identifier : IType → String
  | .int => "int"
  | .bool => "bool"
  | .str => "str"
  | .noneT => "none"
  | .sequence v _ => "sequence[" ++ v.identifier ++ "]"

/-- Raw Python runtime values that can appear as literal payloads and as
inputs of the reflective `is_type_of` / `build` predicates.  The `bool`
constructor is distinct from `int` so that the exact-runtime-class test
`type(value) == int` of the source is expressible: in Python
`type(True) == int` is `False` although `bool` subclasses `int`. -/
inductive PyValue where
  | int (n : Int)
  | bool (b : Bool)
  | str (s : String)
  | noneV
  | float
deriving DecidableEq, Repr

/-- Python `type(v).__name__` for the modelled runtime values. -/
def PyValue.typeName : PyValue → String
  | .int _ => "int"
  | .bool _ => "bool"
  | .str _ => "str"
  | .noneV => "NoneType"
  | .float => "float"

/-- Python `isinstance(v, int)`: `True` for plain integers and also for
booleans, because `bool` is a subclass of `int`.  Used by `visit_Num`. -/
def PyValue.isinstance_int : PyValue → Bool
  | .int _ => true
  | .bool _ => true
  | _ => false

/-- Modelled from the spec: `Type.get_type(value)` of the missing registry
`boa3/model/type/type.py` returns the most specific built-in whose
`is_type_of` accepts the value, falling back to `none` when no built-in
matches (floats and non-value objects have no built-in). -/
def Types.get_type : PyValue → IType
  | .bool _ => .bool
  | .int _ => .int
  | .str _ => .str
  | .noneV => .noneT
  | .float => .noneT

/-- The ABI tag of the integer type (`IntType.abi_type`). -/
def IntType.abi_type : AbiType := .Integer

/-- `IntType.is_type_of` from `boa3/model/type/inttype.py`: the exact
runtime-class check `type(value) == int`.  Booleans fail this check. -/
def IntType.is_type_of : PyValue → Bool
  | .int _ => true
  | _ => false

/-- `IntType.build` from `boa3/model/type/inttype.py`: returns the interned
`Type.int` descriptor when `is_type_of` accepts the value; the Python
function falls off the end otherwise, returning `None`. -/
def IntType.build (value : PyValue) : Option IType :=
  if IntType.is_type_of value then some IType.int else none

end Boa3

namespace Boa3.Opcode

/-! The VM opcode enumeration of `boa3/neo/vm/opcode/Opcode.py`.  Each
member's value is a byte string; we model a byte string as a `List Nat`
of byte values.  `NEWBUFFER` and `MEMCPY` are written with a trailing
comma in the source, so their enum values are 1-tuples rather than byte
strings; a byte-string lookup therefore never finds them and they are
left out of the lookup list below. -/

def PUSHINT8 : List Nat := [0x00]
def PUSHINT16 : List Nat := [0x01]
def PUSHINT32 : List Nat := [0x02]
def PUSHINT64 : List Nat := [0x03]
def PUSHINT128 : List Nat := [0x04]
def PUSHINT256 : List Nat := [0x05]
def PUSHA : List Nat := [0x0A]
def PUSHNULL : List Nat := [0x0B]
def PUSHDATA1 : List Nat := [0x0C]
def PUSHDATA2 : List Nat := [0x0D]
def PUSHDATA4 : List Nat := [0x0E]
def PUSHM1 : List Nat := [0x0F]
def PUSH0 : List Nat := [0x10]
def PUSH1 : List Nat := [0x11]
def PUSH2 : List Nat := [0x12]
def PUSH3 : List Nat := [0x13]
def PUSH4 : List Nat := [0x14]
def PUSH5 : List Nat := [0x15]
def PUSH6 : List Nat := [0x16]
def PUSH7 : List Nat := [0x17]
def PUSH8 : List Nat := [0x18]
def PUSH9 : List Nat := [0x19]
def PUSH10 : List Nat := [0x1A]
def PUSH11 : List Nat := [0x1B]
def PUSH12 : List Nat := [0x1C]
def PUSH13 : List Nat := [0x1D]
def PUSH14 : List Nat := [0x1E]
def PUSH15 : List Nat := [0x1F]
def PUSH16 : List Nat := [0x20]
def NOP : List Nat := [0x21]
def JMP : List Nat := [0x22]
def JMP_L : List Nat := [0x23]
def JMPIF : List Nat := [0x24]
def JMPIF_L : List Nat := [0x25]
def JMPIFNOT : List Nat := [0x26]
def JMPIFNOT_L : List Nat := [0x27]
def JMPEQ : List Nat := [0x28]
def JMPEQ_L : List Nat := [0x29]
def JMPNE : List Nat := [0x2A]
def JMPNE_L : List Nat := [0x2B]
def JMPGT : List Nat := [0x2C]
def JMPGT_L : List Nat := [0x2D]
def JMPGE : List Nat := [0x2E]
def JMPGE_L : List Nat := [0x2F]
def JMPLT : List Nat := [0x30]
def JMPLT_L : List Nat := [0x31]
def JMPLE : List Nat := [0x32]
def JMPLE_L : List Nat := [0x33]
def CALL : List Nat := [0x34]
def CALL_L : List Nat := [0x35]
def CALLA : List Nat := [0x36]
def ABORT : List Nat := [0x37]
def ASSERT : List Nat := [0x38]
def THROW : List Nat := [0x3A]
def TRY : List Nat := [0x3B]
def TRY_L : List Nat := [0x3C]
def ENDTRY : List Nat := [0x3D]
def ENDTRY_L : List Nat := [0x3E]
def ENDFINALLY : List Nat := [0x3F]
def RET : List Nat := [0x40]
def SYSCALL : List Nat := [0x41]
def DEPTH : List Nat := [0x43]
def DROP : List Nat := [0x45]
def NIP : List Nat := [0x46]
def XDROP : List Nat := [0x48]
def CLEAR : List Nat := [0x49]
def DUP : List Nat := [0x4A]
def OVER : List Nat := [0x4B]
def PICK : List Nat := [0x4D]
def TUCK : List Nat := [0x4E]
def SWAP : List Nat := [0x50]
def ROT : List Nat := [0x51]
def ROLL : List Nat := [0x52]
def REVERSE3 : List Nat := [0x53]
def REVERSE4 : List Nat := [0x54]
def REVERSEN : List Nat := [0x55]
def INITSSLOT : List Nat := [0x56]
def INITSLOT : List Nat := [0x57]
def LDSFLD0 : List Nat := [0x58]
def LDSFLD1 : List Nat := [0x59]
def LDSFLD2 : List Nat := [0x5A]
def LDSFLD3 : List Nat := [0x5B]
def LDSFLD4 : List Nat := [0x5C]
def LDSFLD5 : List Nat := [0x5D]
def LDSFLD6 : List Nat := [0x5E]
def LDSFLD : List Nat := [0x5F]
def STSFLD0 : List Nat := [0x60]
def STSFLD1 : List Nat := [0x61]
def STSFLD2 : List Nat := [0x62]
def STSFLD3 : List Nat := [0x63]
def STSFLD4 : List Nat := [0x64]
def STSFLD5 : List Nat := [0x65]
def STSFLD6 : List Nat := [0x66]
def STSFLD : List Nat := [0x67]
def LDLOC0 : List Nat := [0x68]
def LDLOC1 : List Nat := [0x69]
def LDLOC2 : List Nat := [0x6A]
def LDLOC3 : List Nat := [0x6B]
def LDLOC4 : List Nat := [0x6C]
def LDLOC5 : List Nat := [0x6D]
def LDLOC6 : List Nat := [0x6E]
def LDLOC : List Nat := [0x6F]
def STLOC0 : List Nat := [0x70]
def STLOC1 : List Nat := [0x71]
def STLOC2 : List Nat := [0x72]
def STLOC3 : List Nat := [0x73]
def STLOC4 : List Nat := [0x74]
def STLOC5 : List Nat := [0x75]
def STLOC6 : List Nat := [0x76]
def STLOC : List Nat := [0x77]
def LDARG0 : List Nat := [0x78]
def LDARG1 : List Nat := [0x79]
def LDARG2 : List Nat := [0x7A]
def LDARG3 : List Nat := [0x7B]
def LDARG4 : List Nat := [0x7C]
def LDARG5 : List Nat := [0x7D]
def LDARG6 : List Nat := [0x7E]
def LDARG : List Nat := [0x7F]
def STARG0 : List Nat := [0x80]
def STARG1 : List Nat := [0x81]
def STARG2 : List Nat := [0x82]
def STARG3 : List Nat := [0x83]
def STARG4 : List Nat := [0x84]
def STARG5 : List Nat := [0x85]
def STARG6 : List Nat := [0x86]
def STARG : List Nat := [0x87]
def CAT : List Nat := [0x8B]
def SUBSTR : List Nat := [0x8C]
def LEFT : List Nat := [0x8D]
def RIGHT : List Nat := [0x8E]
def INVERT : List Nat := [0x90]
def AND : List Nat := [0x91]
def OR : List Nat := [0x92]
def XOR : List Nat := [0x93]
def EQUAL : List Nat := [0x97]
def NOTEQUAL : List Nat := [0x98]
def SIGN : List Nat := [0x99]
def ABS : List Nat := [0x9A]
def NEGATE : List Nat := [0x9B]
def INC : List Nat := [0x9C]
def DEC : List Nat := [0x9D]
def ADD : List Nat := [0x9E]
def SUB : List Nat := [0x9F]
def MUL : List Nat := [0xA0]
def DIV : List Nat := [0xA1]
def MOD : List Nat := [0xA2]
def SHL : List Nat := [0xA8]
def SHR : List Nat := [0xA9]
def NOT : List Nat := [0xAA]
def BOOLAND : List Nat := [0xAB]
def BOOLOR : List Nat := [0xAC]
def NZ : List Nat := [0xB1]
def NUMEQUAL : List Nat := [0xB3]
def NUMNOTEQUAL : List Nat := [0xB4]
def LT : List Nat := [0xB5]
def LE : List Nat := [0xB6]
def GT : List Nat := [0xB7]
def GE : List Nat := [0xB8]
def MIN : List Nat := [0xB9]
def MAX : List Nat := [0xBA]
def WITHIN : List Nat := [0xBB]
def PACK : List Nat := [0xC0]
def UNPACK : List Nat := [0xC1]
def NEWARRAY0 : List Nat := [0xC2]
def NEWARRAY : List Nat := [0xC3]
def NEWARRAY_T : List Nat := [0xC4]
def NEWSTRUCT0 : List Nat := [0xC5]
def NEWSTRUCT : List Nat := [0xC6]
def NEWMAP : List Nat := [0xC8]
def SIZE : List Nat := [0xCA]
def HASKEY : List Nat := [0xCB]
def KEYS : List Nat := [0xCC]
def VALUES : List Nat := [0xCD]
def PICKITEM : List Nat := [0xCE]
def APPEND : List Nat := [0xCF]
def SETITEM : List Nat := [0xD0]
def REVERSEITEMS : List Nat := [0xD1]
def REMOVE : List Nat := [0xD2]
def CLEARITEMS : List Nat := [0xD3]
def ISNULL : List Nat := [0xD8]
def ISTYPE : List Nat := [0xD9]
def CONVERT : List Nat := [0xDB]

/-- The byte-string values of all `Opcode` enum members (in definition
order), used to model the enum-constructor lookup `Opcode(value)`. -/
def members : List (List Nat) :=
  [PUSHINT8, PUSHINT16, PUSHINT32, PUSHINT64, PUSHINT128, PUSHINT256,
   PUSHA, PUSHNULL, PUSHDATA1, PUSHDATA2, PUSHDATA4,
   PUSHM1, PUSH0, PUSH1, PUSH2, PUSH3, PUSH4, PUSH5, PUSH6, PUSH7, PUSH8,
   PUSH9, PUSH10, PUSH11, PUSH12, PUSH13, PUSH14, PUSH15, PUSH16,
   NOP, JMP, JMP_L, JMPIF, JMPIF_L, JMPIFNOT, JMPIFNOT_L, JMPEQ, JMPEQ_L,
   JMPNE, JMPNE_L, JMPGT, JMPGT_L, JMPGE, JMPGE_L, JMPLT, JMPLT_L,
   JMPLE, JMPLE_L, CALL, CALL_L, CALLA, ABORT, ASSERT, THROW, TRY, TRY_L,
   ENDTRY, ENDTRY_L, ENDFINALLY, RET, SYSCALL,
   DEPTH, DROP, NIP, XDROP, CLEAR, DUP, OVER, PICK, TUCK, SWAP, ROT, ROLL,
   REVERSE3, REVERSE4, REVERSEN, INITSSLOT, INITSLOT,
   LDSFLD0, LDSFLD1, LDSFLD2, LDSFLD3, LDSFLD4, LDSFLD5, LDSFLD6, LDSFLD,
   STSFLD0, STSFLD1, STSFLD2, STSFLD3, STSFLD4, STSFLD5, STSFLD6, STSFLD,
   LDLOC0, LDLOC1, LDLOC2, LDLOC3, LDLOC4, LDLOC5, LDLOC6, LDLOC,
   STLOC0, STLOC1, STLOC2, STLOC3, STLOC4, STLOC5, STLOC6, STLOC,
   LDARG0, LDARG1, LDARG2, LDARG3, LDARG4, LDARG5, LDARG6, LDARG,
   STARG0, STARG1, STARG2, STARG3, STARG4, STARG5, STARG6, STARG,
   CAT, SUBSTR, LEFT, RIGHT, INVERT, AND, OR, XOR, EQUAL, NOTEQUAL,
   SIGN, ABS, NEGATE, INC, DEC, ADD, SUB, MUL, DIV, MOD, SHL, SHR, NOT,
   BOOLAND, BOOLOR, NZ, NUMEQUAL, NUMNOTEQUAL, LT, LE, GT, GE, MIN, MAX,
   WITHIN, PACK, UNPACK, NEWARRAY0, NEWARRAY, NEWARRAY_T, NEWSTRUCT0,
   NEWSTRUCT, NEWMAP, SIZE, HASKEY, KEYS, VALUES, PICKITEM, APPEND,
   SETITEM, REVERSEITEMS, REMOVE, CLEARITEMS, ISNULL, ISTYPE, CONVERT]

/-- The enum constructor `Opcode(value)`: returns the member whose value is
the given byte string, `none` when no member has that value (Python raises
`ValueError` there). -/
def ofBytes (value : List Nat) : Option (List Nat) :=
  if members.contains value then some value else none

end Boa3.Opcode

namespace Boa3.Integer

/-- Modelled from the spec: the byte helper `boa3/neo/vm/type/Integer.py` is
not under `src/`; the opcode table treats it as the conversion between a
byte string and the integer it denotes.  `from_bytes` reads a little-endian
unsigned integer from a byte string. -/
def from_bytes (bs : List Nat) : Int :=
  Int.ofNat (bs.foldr (fun b acc => b + 256 * acc) 0)

/-- Minimal little-endian byte encoding of a natural number. -/
def natToBytesLE (n : Nat) : List Nat :=
  if h : n < 256 then [n]
  else (n % 256) :: natToBytesLE (n / 256)
decreasing_by exact Nat.div_lt_self (by omega) (by omega)

/-- Modelled from the spec: `Integer(value).to_byte_array()` encodes the
integer as its minimal byte string.  Only nonnegative values occur at the
modelled call sites (the literal-push range maps to bytes 0x0F..0x20); a
negative value is mapped to the empty byte string. -/
def to_byte_array (n : Int) : List Nat :=
  if n < 0 then [] else natToBytesLE n.toNat

end Boa3.Integer

namespace Boa3.Opcode

/-- `Opcode.get_literal_push` from `boa3/neo/vm/opcode/Opcode.py`: for
`-1 <= integer <= 16` the push opcode at byte value `PUSH0 + integer`,
otherwise `None`. -/
def get_literal_push (integer : Int) : Option (List Nat) :=
  if -1 ≤ integer ∧ integer ≤ 16 then
    let opcode_value : Int := Boa3.Integer.from_bytes PUSH0 + integer
    ofBytes (Boa3.Integer.to_byte_array opcode_value)
  else
    none

end Boa3.Opcode

namespace Boa3

/-- The abstract operator vocabulary (`boa3/model/operation/operator.py`,
an enumeration per the spec's Operator Vocabulary). -/
inductive Operator where
  | plus | minus | mult | intDiv | modOp
  | eq | notEq | lt | ltE | gt | gtE | isOp | isNotOp
  | andOp | orOp | notOp
  | subscript
deriving DecidableEq, Repr

/-- `Concat._valid_types` from
`boa3/model/operation/binary/arithmetic/concat.py`. -/
def Concat.valid_types : List IType := [IType.str]

/-- `Concat.validate_type` (binary arity): both operand types must be equal
and the left one must be among the valid types (only `str`). -/
def Concat.validate_type (left right : IType) : Bool :=
  left == right && Concat.valid_types.contains left

/-- `Concat._get_result`: the left type when the operands validate,
`Type.none` otherwise. -/
def Concat.get_result (left right : IType) : IType :=
  if Concat.validate_type left right then left else IType.noneT

/-- `Concat.operator` is `Operator.Plus` (set in `Concat.__init__`). -/
def Concat.operator : Operator := .plus

/-- `Concat.opcode` is `Opcode.CAT`. -/
def Concat.opcode : List Nat := Opcode.CAT

/-- `Concat.is_supported` is `False` (source TODO: change when concat is
supported). -/
def Concat.is_supported : Bool := false

/-- Modelled from the spec: the identities of the concrete binary
operations of the missing registry `boa3/model/operation/binaryop.py`.
`concat` is the one operation whose class is under `src/`; the others are
the integer arithmetic, numeric comparison and boolean operations the
spec's Operation Registry describes. -/
inductive BinOpId where
  | addition | subtraction | multiplication | intDivision | modulo
  | concat
  | numLt | numLtE | numGt | numGtE | numEq | numNotEq
  | boolAnd | boolOr
deriving DecidableEq, Repr

/-- The operator label of each binary operation. -/
def BinOpId.operator : BinOpId → Operator
  | .addition => .plus
  | .subtraction => .minus
  | .multiplication => .mult
  | .intDivision => .intDiv
  | .modulo => .modOp
  | .concat => Concat.operator
  | .numLt => .lt
  | .numLtE => .ltE
  | .numGt => .gt
  | .numGtE => .gtE
  | .numEq => .eq
  | .numNotEq => .notEq
  | .boolAnd => .andOp
  | .boolOr => .orOp

/-- `validate_type` of each binary operation.  `concat` is translated from
`concat.py`; the rest are modelled from the spec (integer operands for the
arithmetic and numeric-comparison operations, boolean operands for the
boolean operations). -/
def BinOpId.validate : BinOpId → IType → IType → Bool
  | .concat, l, r => Concat.validate_type l r
  | .boolAnd, l, r => l == IType.bool && r == IType.bool
  | .boolOr, l, r => l == IType.bool && r == IType.bool
  | _, l, r => l == IType.int && r == IType.int

/-- The result type of each binary operation, given the operand types it
was built with (`operation.result`).  `concat` is translated from
`concat.py`; arithmetic results are `int`, comparisons and boolean
operations yield `bool` (modelled from the spec). -/
def BinOpId.resultWith : BinOpId → IType → IType → IType
  | .concat, l, r => Concat.get_result l r
  | .addition, _, _ => .int
  | .subtraction, _, _ => .int
  | .multiplication, _, _ => .int
  | .intDivision, _, _ => .int
  | .modulo, _, _ => .int
  | _, _, _ => .bool

/-- The `is_supported` flag.  `concat` is translated from `concat.py`
(`False`); `numEq` is unsupported per the source TODO in `visit_Compare`
("is, is not and eq were not implemented yet"); the rest are supported. -/
def BinOpId.is_supported : BinOpId → Bool
  | .concat => Concat.is_supported
  | .numEq => false
  | _ => true

/-- The canonical (declared) left operand type of each operation, used in
the expected-signature part of `MismatchedTypes` diagnostics. -/
def BinOpId.left_type : BinOpId → IType
  | .concat => .str
  | .boolAnd => .bool
  | .boolOr => .bool
  | _ => .int

/-- The canonical (declared) right operand type of each operation. -/
def BinOpId.right_type : BinOpId → IType
  | .concat => .str
  | .boolAnd => .bool
  | .boolOr => .bool
  | _ => .int

/-- The Python class name of each operation (`type(op).__name__`), used by
`UnresolvedReference` diagnostics when an operator slot holds something the
operator table does not know. -/
def BinOpId.className : BinOpId → String
  | .addition => "Addition"
  | .subtraction => "Subtraction"
  | .multiplication => "Multiplication"
  | .intDivision => "IntDivision"
  | .modulo => "Modulo"
  | .concat => "Concat"
  | .numLt => "LessThan"
  | .numLtE => "LessThanOrEqual"
  | .numGt => "GreaterThan"
  | .numGtE => "GreaterThanOrEqual"
  | .numEq => "NumericEquality"
  | .numNotEq => "NumericInequality"
  | .boolAnd => "BooleanAnd"
  | .boolOr => "BooleanOr"

/-- A resolved binary operation as stored into an AST operator slot:
the operation identity together with the operand types it was built with
(`op.build(left, right)` of the registry). -/
structure BuiltBinOp where
  id : BinOpId
  left : IType
  right : IType
deriving DecidableEq, Repr

/-- `operation.result` of a built binary operation. -/
def BuiltBinOp.result (o : BuiltBinOp) : IType := o.id.resultWith o.left o.right

/-- `operation.is_supported` of a built binary operation. -/
def BuiltBinOp.is_supported (o : BuiltBinOp) : Bool := o.id.is_supported

namespace BinaryOp

/-- Modelled from the spec: the ordered list of operations registered in
the binary registry `BinaryOp` (each operator maps to an ordered list of
Operations; first-registered is canonical). -/
def operations : List BinOpId :=
  [.addition, .subtraction, .multiplication, .intDivision, .modulo,
   .concat,
   .numLt, .numLtE, .numGt, .numGtE, .numEq, .numNotEq,
   .boolAnd, .boolOr]

/-- Modelled from the spec: `BinaryOp.validate_type(operator, l, r)`
iterates the registered operations and returns the first one registered
under the operator whose `validate_type` accepts the operand types, built
with those types; otherwise `None`. -/
def validate_type (operator : Operator) (left right : IType) : Option BuiltBinOp :=
  match operations.find? (fun o => o.operator == operator && o.validate left right) with
  | some o => some ⟨o, left, right⟩
  | none => none

/-- Modelled from the spec: `BinaryOp.get_operation_by_operator` returns
the canonical (first-registered) operation of the operator, used to report
the expected signature when resolution failed. -/
def get_operation_by_operator (operator : Operator) : Option BinOpId :=
  operations.find? (fun o => o.operator == operator)

end BinaryOp

/-- Modelled from the spec: identities of the unary operations of the
missing registry `boa3/model/operation/unaryop.py` (numeric sign
operations and boolean negation). -/
inductive UnOpId where
  | positive | negative | boolNot
deriving DecidableEq, Repr

/-- The operator label of each unary operation. -/
def UnOpId.operator : UnOpId → Operator
  | .positive => .plus
  | .negative => .minus
  | .boolNot => .notOp

/-- Modelled from the spec: `validate_type` of each unary operation. -/
def UnOpId.validate : UnOpId → IType → Bool
  | .boolNot, t => t == IType.bool
  | _, t => t == IType.int

/-- The result type of each unary operation. -/
def UnOpId.resultWith : UnOpId → IType → IType
  | .boolNot, _ => .bool
  | _, _ => .int

/-- The `is_supported` flag of each unary operation. -/
def UnOpId.is_supported : UnOpId → Bool := fun _ => true

/-- The canonical operand type, used in `MismatchedTypes` expected parts. -/
def UnOpId.operand_type : UnOpId → IType
  | .boolNot => .bool
  | _ => .int

/-- The Python class name of each unary operation. -/
def UnOpId.className : UnOpId → String
  | .positive => "Positive"
  | .negative => "Negative"
  | .boolNot => "BooleanNot"

/-- A resolved unary operation with the operand type it was built with. -/
structure BuiltUnOp where
  id : UnOpId
  operand : IType
deriving DecidableEq, Repr

/-- `operation.result` of a built unary operation. -/
def BuiltUnOp.result (o : BuiltUnOp) : IType := o.id.resultWith o.operand

/-- `operation.is_supported` of a built unary operation. -/
def BuiltUnOp.is_supported (o : BuiltUnOp) : Bool := o.id.is_supported

namespace UnaryOp

/-- Modelled from the spec: the ordered unary registry. -/
def operations : List UnOpId := [.positive, .negative, .boolNot]

/-- Modelled from the spec: first registered unary operation of the
operator accepting the operand type. -/
def validate_type (operator : Operator) (operand : IType) : Option BuiltUnOp :=
  match operations.find? (fun o => o.operator == operator && o.validate operand) with
  | some o => some ⟨o, operand⟩
  | none => none

/-- Modelled from the spec: canonical unary operation of an operator. -/
def get_operation_by_operator (operator : Operator) : Option UnOpId :=
  operations.find? (fun o => o.operator == operator)

end UnaryOp

end Boa3

namespace Boa3

/-- Payload of `NotSupportedOperation`: either an operator (binary/unary
resolution) or a plain message (`visit_Assign` passes the string
"Multiple variable assignments"). -/
inductive ErrOpArg where
  | oper (o : Operator)
  | text (s : String)
deriving DecidableEq, Repr

/-- The closed set of compiler errors (`boa3/exception/CompilerError`),
with the payloads used by the type analyser.  `MismatchedTypes` stores the
expected and actual parts as strings, matching the formatted arguments the
analyser passes and re-reads via `args[2]` / `args[3]`. -/
inductive CompilerError where
  | typeHintMissing (line col : Nat) (symbol_id : Option String)
  | mismatchedTypes (line col : Nat) (expected actual : String)
  | notSupportedOperation (line col : Nat) (op : ErrOpArg)
  | unresolvedReference (line col : Nat) (token : String)
  | tooManyReturns (line col : Nat)
  | invalidType (line col : Nat) (symbol_id : String)
  | incorrectNumberOfOperands (line col : Nat) (got expected : Nat)
deriving DecidableEq, Repr

/-- What a raised Python exception can be during the walk: a
`CompilerError` raised by `_log_error` or by `get_bin_op`/`get_un_op`, or
a non-compiler failure (`NotImplementedError`, `IndexError`,
`AttributeError`, `KeyError`) that no analyser handler catches. -/
inductive Raised where
  | comp (e : CompilerError)
  | fatal (msg : String)
deriving DecidableEq, Repr

/-- An apostrophe, built from its character code so the formatted
diagnostic strings below can quote type identifiers the way the source's
`"%s', '%s"` format does. -/
def apos : String := String.singleton (Char.ofNat 39)

/-- The source's `"%s', '%s" % (a, b)` format joining two type
identifiers: the pair is later surrounded by outer quotes when printed. -/
def fmt_pair (a b : String) : String := a ++ apos ++ ", " ++ apos ++ b

/-- Symbols that live inside a method's local scope or a module's symbol
map: a type descriptor or a typed variable (an `IExpression` exposing
`.type`). -/
inductive SimpleSym where
  | typeS (t : IType)
  | var (t : IType)
deriving DecidableEq, Repr

/-- A method symbol (`boa3/model/method.py` as the spec describes it): a
local symbol table and a declared return type. -/
structure Method where
  symbols : List (String × SimpleSym)
  return_type : IType
deriving DecidableEq, Repr

/-- A module symbol (`boa3/model/module.py` as the spec describes it): its
own symbol map. -/
structure Module where
  symbols : List (String × SimpleSym)
deriving DecidableEq, Repr

/-- Any named entity resolvable by identifier (`ISymbol`): a simple symbol,
a method, or a module. -/
inductive Symbol where
  | simple (s : SimpleSym)
  | methodS (m : Method)
  | moduleS (m : Module)
deriving DecidableEq, Repr

/-- The analyser's scope state: `__current_method`, the `modules` map and
the global `symbols` map of `TypeAnalyser`.  Maps are association lists
looked up by key equality, mirroring dict membership tests. -/
structure Ctx where
  current_method : Option Method
  modules : List (String × Module)
  symbols : List (String × Symbol)
deriving DecidableEq, Repr

/-- `TypeAnalyser.get_symbol`: current-method locals first, then the
modules map, then the globals; `None` when the identifier is in none of
the three.  A hit in an earlier scope is returned without consulting the
later ones. -/
def get_symbol (ctx : Ctx) (symbol_id : String) : Option Symbol :=
  match ctx.current_method.bind (fun m => m.symbols.lookup symbol_id) with
  | some s => some (.simple s)
  | none =>
    match ctx.modules.lookup symbol_id with
    | some m => some (.moduleS m)
    | none =>
      match ctx.symbols.lookup symbol_id with
      | some s => some s
      | none => none

/-- `TypeAnalyser.__current_method_id`: the first key of the global symbol
map whose value equals the current method (`None` when the current method
is not a value of the map).  The source compares by object identity;
structural equality stands in for it here. -/
def current_method_id (ctx : Ctx) : Option String :=
  match ctx.current_method with
  | none => none
  | some m =>
    match ctx.symbols.find? (fun kv => kv.2 == Symbol.methodS m) with
    | some kv => some kv.1
    | none => none

/-- The syntactic Python `ast` operator classes that can sit in an operator
slot before resolution, i.e. the keys of `TypeAnalyser.__operators` plus an
escape constructor for operator classes outside the table (`ast.Pow`,
`ast.Div`, ...). -/
inductive RawOp where
  | add | sub | multOp | floorDiv | modK | uAdd | uSub
  | eqK | notEqK | ltK | ltEK | gtK | gtEK | isK | isNotK
  | andK | orK | notK
  | other (className : String)
deriving DecidableEq, Repr

/-- Python `type(op).__name__` of a syntactic operator node. -/
def RawOp.className : RawOp → String
  | .add => "Add"
  | .sub => "Sub"
  | .multOp => "Mult"
  | .floorDiv => "FloorDiv"
  | .modK => "Mod"
  | .uAdd => "UAdd"
  | .uSub => "USub"
  | .eqK => "Eq"
  | .notEqK => "NotEq"
  | .ltK => "Lt"
  | .ltEK => "LtE"
  | .gtK => "Gt"
  | .gtEK => "GtE"
  | .isK => "Is"
  | .isNotK => "IsNot"
  | .andK => "And"
  | .orK => "Or"
  | .notK => "Not"
  | .other s => s

/-- The class dictionary `TypeAnalyser.__operators`, mapping each Python
ast operator class to its Boa operator; `none` for classes outside the
table. -/
def operators_table : RawOp → Option Operator
  | .add => some .plus
  | .sub => some .minus
  | .multOp => some .mult
  | .floorDiv => some .intDiv
  | .modK => some .modOp
  | .uAdd => some .plus
  | .uSub => some .minus
  | .eqK => some .eq
  | .notEqK => some .notEq
  | .ltK => some .lt
  | .ltEK => some .ltE
  | .gtK => some .gt
  | .gtEK => some .gtE
  | .isK => some .isOp
  | .isNotK => some .isNotOp
  | .andK => some .andOp
  | .orK => some .orOp
  | .notK => some .notOp
  | .other _ => none

/-- The mutable operator slot of a `BinOp` or `Compare` node: either the
syntactic operator class the parser produced or the resolved operation the
analyser rewrote it to. -/
inductive BinSlot where
  | raw (op : RawOp)
  | resolved (o : BuiltBinOp)
deriving DecidableEq, Repr

/-- Python `type(slot).__name__` of whatever sits in the slot. -/
def BinSlot.className : BinSlot → String
  | .raw op => op.className
  | .resolved o => o.id.className

/-- The operator slot of a `UnaryOp` node. -/
inductive UnSlot where
  | raw (op : RawOp)
  | resolved (o : BuiltUnOp)
deriving DecidableEq, Repr

/-- Python `type(slot).__name__` of a unary slot. -/
def UnSlot.className : UnSlot → String
  | .raw op => op.className
  | .resolved o => o.id.className

/-- The operator slot of a `BoolOp` node.  `visit_BoolOp` assigns
`bool_op.op = bool_operation` where `bool_operation` may still be `None`
(single-operand chains), so the resolved state stores an optional
operation. -/
inductive BoolSlot where
  | raw (op : RawOp)
  | resolved (o : Option BuiltBinOp)
deriving DecidableEq, Repr

/-- `TypeAnalyser.get_operator` applied to a binary slot.  The first
branch of the source (`isinstance(node, Operator)`, commented "the node
has already been visited") never fires for a rewritten slot, because the
slot then holds a `BinaryOperation` instance and operation classes do not
subclass the `Operator` enumeration — visible under `src/` in `concat.py`,
where `Concat` carries an `operator` FIELD whose value is the enum member
`Operator.Plus` and is constructed with two type arguments, which an
enumeration member cannot be.  The class of a resolved operation is then
also not a key of `__operators`, so the lookup returns `None`. -/
def get_operator_bin : BinSlot → Option Operator
  | .raw op => operators_table op
  | .resolved _ => none

/-- `TypeAnalyser.get_operator` applied to a unary slot (same reasoning as
for binary slots). -/
def get_operator_un : UnSlot → Option Operator
  | .raw op => operators_table op
  | .resolved _ => none

/-- `TypeAnalyser.get_operator` applied to a boolean-operation slot (same
reasoning; a slot holding `None` or an operation resolves to no operator). -/
def get_operator_bool : BoolSlot → Option Operator
  | .raw op => operators_table op
  | .resolved _ => none

mutual
/-- The AST expression nodes the analyser visits: literals, names, tuples
and the operator nodes.  Operator nodes carry mutable slots. -/
inductive Expr where
  | num (p : Pos) (n : PyValue)
  | strL (p : Pos) (s : String)
  | nameConst (p : Pos) (v : PyValue)
  | name (p : Pos) (id : String)
  | tupleE (p : Pos) (elts : ExprList)
  | binOp (p : Pos) (op : BinSlot) (left right : Expr)
  | unaryOp (p : Pos) (op : UnSlot) (operand : Expr)
  | compare (p : Pos) (left : Expr) (ops : List BinSlot) (comparators : ExprList)
  | boolOp (p : Pos) (op : BoolSlot) (values : ExprList)
deriving Repr

/-- A list of expressions (comparators, boolean-operation values, tuple
elements, assignment targets), kept as a mutually defined type so the
visitors below can recurse structurally. -/
inductive ExprList where
  | nil
  | cons (head : Expr) (tail : ExprList)
deriving Repr
end

/-- The source position of an expression node. -/
def Expr.pos : Expr → Pos
  | .num p _ => p
  | .strL p _ => p
  | .nameConst p _ => p
  | .name p _ => p
  | .tupleE p _ => p
  | .binOp p _ _ _ => p
  | .unaryOp p _ _ => p
  | .compare p _ _ _ => p
  | .boolOp p _ _ => p

/-- The length of an expression list (`len(...)`). -/
def ExprList.length : ExprList → Nat
  | .nil => 0
  | .cons _ t => t.length + 1

/-- The values a visit can produce for its parent: a raw Python value
(literals, constants, the `None` return), a `Name` node, a type descriptor
(operator nodes), or the tuple of element nodes `visit_Tuple` builds. -/
inductive Value where
  | pyV (v : PyValue)
  | nameV (p : Pos) (id : String)
  | typeV (t : IType)
  | tupleV (elts : ExprList)
deriving Repr

/-- `IAstAnalyser.get_type` on a visit result: a `Name` collapses to its
resolved symbol (type descriptors and typed expressions expose their
type, a method exposes its return type, anything else falls back to the
lattice's `get_type`, which yields `none` for modules and unresolved
names); a type descriptor is returned unchanged; raw values go through
the lattice; a tuple of nodes matches no built-in. -/
def getTypeValue (ctx : Ctx) : Value → IType
  | .nameV _ id =>
    match get_symbol ctx id with
    | some (.simple (.typeS t)) => t
    | some (.simple (.var t)) => t
    | some (.methodS m) => m.return_type
    | some (.moduleS _) => IType.noneT
    | none => IType.noneT
  | .typeV t => t
  | .pyV v => Types.get_type v
  | .tupleV _ => IType.noneT

/-- `TypeAnalyser.get_bin_op`: looks up the operand types, asks the binary
registry, and returns the operation or raises `MismatchedTypes` carrying
the expected signature of the operator's canonical operation and the
actual operand types (at placeholder coordinates 0,0).  When the operator
has no registered operation at all, the source dereferences `None` and
crashes with an `AttributeError`. -/
def get_bin_op (ctx : Ctx) (operator : Operator) (right left : Value) :
    Except Raised BuiltBinOp :=
  let l_type := getTypeValue ctx left
  let r_type := getTypeValue ctx right
  let actual_types := fmt_pair l_type.identifier r_type.identifier
  match BinaryOp.validate_type operator l_type r_type with
  | some operation => .ok operation
  | none =>
    match BinaryOp.get_operation_by_operator operator with
    | some expected_op =>
      .error (.comp (.mismatchedTypes 0 0
        (fmt_pair expected_op.left_type.identifier expected_op.right_type.identifier)
        actual_types))
    | none => .error (.fatal "AttributeError")

/-- `TypeAnalyser.get_un_op`: unary analogue of `get_bin_op`; the expected
and actual parts are single identifiers. -/
def get_un_op (ctx : Ctx) (operator : Operator) (operand : Value) :
    Except Raised BuiltUnOp :=
  let op_type := getTypeValue ctx operand
  let actual_type := op_type.identifier
  match UnaryOp.validate_type operator op_type with
  | some operation => .ok operation
  | none =>
    match UnaryOp.get_operation_by_operator operator with
    | some expected_op =>
      .error (.comp (.mismatchedTypes 0 0 expected_op.operand_type.identifier actual_type))
    | none => .error (.fatal "AttributeError")

/-- The `except CompilerError.MismatchedTypes` handler shared by the
operator visitors: a caught `MismatchedTypes` is re-logged at the handler's
coordinates with the caught error's expected/actual payload (`args[2]`,
`args[3]`) and re-raised; any other raised value passes through unchanged
without logging. -/
def relog_mismatched (line col : Nat) (e : Raised) (errs : List CompilerError) :
    Raised × List CompilerError :=
  match e with
  | .comp (.mismatchedTypes _ _ expected actual) =>
    let e2 := CompilerError.mismatchedTypes line col expected actual
    (.comp e2, errs ++ [e2])
  | other => (other, errs)

end Boa3

namespace Boa3

/-- Accumulated diagnostics (`IAstAnalyser.errors`, append-only). -/
abbrev Errors := List CompilerError

mutual
/-- The expression part of `TypeAnalyser.visit`: dispatches on the node
kind like `ast.NodeVisitor`.  The result triple carries the visit's return
value or the raised exception, the updated error list, and the node with
any in-place operator rewrites applied.  `_log_error` appends to the error
list and raises, which this embedding renders as returning an `error`
result whose error was just appended. -/
def visitExpr (ctx : Ctx) (e : Expr) (errs : Errors) :
    Except Raised Value × Errors × Expr :=
  match e with
  | .num p n =>
    -- visit_Num: only integers are allowed (isinstance check, so booleans
    -- pass); the number's value is returned.
    if n.isinstance_int then (.ok (.pyV n), errs, .num p n)
    else
      let e1 := CompilerError.invalidType p.line p.col n.typeName
      (.error (.comp e1), errs ++ [e1], .num p n)
  | .strL p s => (.ok (.pyV (.str s)), errs, .strL p s)
  | .nameConst p v => (.ok (.pyV v), errs, .nameConst p v)
  | .name p id => (.ok (.nameV p id), errs, .name p id)
  | .tupleE p elts =>
    -- visit_Tuple returns the tuple of element nodes, not recursively
    -- walked.
    (.ok (.tupleV elts), errs, .tupleE p elts)
  | .binOp p slot left right =>
    -- visit_BinOp: operator looked up, then the RIGHT operand is visited
    -- before the left one; the operator check and the try block follow.
    let operator? := get_operator_bin slot
    match visitExpr ctx right errs with
    | (.error e1, errs1, right1) => (.error e1, errs1, .binOp p slot left right1)
    | (.ok r_operand, errs1, right1) =>
      match visitExpr ctx left errs1 with
      | (.error e1, errs2, left1) => (.error e1, errs2, .binOp p slot left1 right1)
      | (.ok l_operand, errs2, left1) =>
        match operator? with
        | none =>
          let e1 := CompilerError.unresolvedReference p.line p.col slot.className
          (.error (.comp e1), errs2 ++ [e1], .binOp p slot left1 right1)
        | some operator =>
          -- try: get_bin_op either returns an operation or raises
          -- MismatchedTypes (caught below); the `operation is None` branch
          -- of the source is unreachable because get_bin_op never returns
          -- None.
          match get_bin_op ctx operator r_operand l_operand with
          | .error e1 =>
            let (e2, errs3) := relog_mismatched p.line p.col e1 errs2
            (.error e2, errs3, .binOp p slot left1 right1)
          | .ok operation =>
            if operation.is_supported then
              (.ok (.typeV operation.result), errs2,
               .binOp p (.resolved operation) left1 right1)
            else
              let e1 := CompilerError.notSupportedOperation p.line p.col (.oper operator)
              (.error (.comp e1), errs2 ++ [e1], .binOp p slot left1 right1)
  | .unaryOp p slot operand =>
    -- visit_UnaryOp: same structure over the unary registry.
    let operator? := get_operator_un slot
    match visitExpr ctx operand errs with
    | (.error e1, errs1, operand1) => (.error e1, errs1, .unaryOp p slot operand1)
    | (.ok op_v, errs1, operand1) =>
      match operator? with
      | none =>
        let e1 := CompilerError.unresolvedReference p.line p.col slot.className
        (.error (.comp e1), errs1 ++ [e1], .unaryOp p slot operand1)
      | some operator =>
        match get_un_op ctx operator op_v with
        | .error e1 =>
          let (e2, errs2) := relog_mismatched p.line p.col e1 errs1
          (.error e2, errs2, .unaryOp p slot operand1)
        | .ok operation =>
          if operation.is_supported then
            (.ok (.typeV operation.result), errs1,
             .unaryOp p (.resolved operation) operand1)
          else
            let e1 := CompilerError.notSupportedOperation p.line p.col (.oper operator)
            (.error (.comp e1), errs1 ++ [e1], .unaryOp p slot operand1)
  | .compare p left ops comparators =>
    -- visit_Compare: the operand-count check logs and raises before the
    -- try block; inside the try the left operand is visited and the
    -- operator/comparator pairs are folded, tracking the diagnostic
    -- coordinates; a caught MismatchedTypes is re-logged at the
    -- coordinates current when it was raised.
    if ops.length != comparators.length then
      let e1 := CompilerError.incorrectNumberOfOperands p.line p.col
        ops.length (comparators.length + 1)
      (.error (.comp e1), errs ++ [e1], .compare p left ops comparators)
    else
      match visitExpr ctx left errs with
      | (.error e1, errs1, left1) =>
        let (e2, errs2) := relog_mismatched p.line p.col e1 errs1
        (.error e2, errs2, .compare p left1 ops comparators)
      | (.ok l_operand, errs1, left1) =>
        match visitCmpLoop ctx p.line p.col l_operand ops comparators
          (.pyV .noneV) errs1 with
        | (.ok return_type, errs2, ops1, comparators1) =>
          (.ok return_type, errs2, .compare p left1 ops1 comparators1)
        | (.error (e1, lineE, colE), errs2, ops1, comparators1) =>
          let (e2, errs3) := relog_mismatched lineE colE e1 errs2
          (.error e2, errs3, .compare p left1 ops1 comparators1)
  | .boolOp p slot values =>
    -- visit_BoolOp: everything including the operator check and the first
    -- operand's visit happens inside the try; when the slot yields no
    -- operator the logged token is type(None).__name__.
    match get_operator_bool slot with
    | none =>
      let e1 := CompilerError.unresolvedReference p.line p.col "NoneType"
      (.error (.comp e1), errs ++ [e1], .boolOp p slot values)
    | some operator =>
      match values with
      | .nil => (.error (.fatal "IndexError"), errs, .boolOp p slot values)
      | .cons v0 vs =>
        match visitExpr ctx v0 errs with
        | (.error e1, errs1, v01) =>
          let (e2, errs2) := relog_mismatched p.line p.col e1 errs1
          (.error e2, errs2, .boolOp p slot (.cons v01 vs))
        | (.ok l_operand, errs1, v01) =>
          match visitBoolLoop ctx operator p.line p.col l_operand vs
            none (.pyV .noneV) errs1 with
          | (.ok (bool_operation, return_type), errs2, vs1) =>
            (.ok return_type, errs2, .boolOp p (.resolved bool_operation) (.cons v01 vs1))
          | (.error (e1, lineE, colE), errs2, vs1) =>
            let (e2, errs3) := relog_mismatched lineE colE e1 errs2
            (.error e2, errs3, .boolOp p slot (.cons v01 vs1))

/-- The loop of `visit_Compare` over the operator/comparator pairs.  The
error outcome carries the coordinates that were current when the exception
was raised, because the surrounding handler logs with them.  The returned
lists are the (possibly partially) rewritten operator slots and comparator
nodes. -/
def visitCmpLoop (ctx : Ctx) (line col : Nat) (l_operand : Value)
    (ops : List BinSlot) (comps : ExprList) (return_type : Value)
    (errs : Errors) :
    Except (Raised × Nat × Nat) Value × Errors × List BinSlot × ExprList :=
  match ops, comps with
  | [], rest => (.ok return_type, errs, [], rest)
  | op :: opsT, .nil =>
    -- comparators[index] out of range: unreachable behind the operand-count
    -- guard, an IndexError in Python.
    (.error (.fatal "IndexError", line, col), errs, op :: opsT, .nil)
  | op :: opsT, .cons c compsT =>
    let operator? := get_operator_bin op
    match visitExpr ctx c errs with
    | (.error e1, errs1, c1) =>
      (.error (e1, line, col), errs1, op :: opsT, .cons c1 compsT)
    | (.ok r_operand, errs1, c1) =>
      match operator? with
      | none =>
        let e1 := CompilerError.unresolvedReference line col op.className
        (.error (.comp e1, line, col), errs1 ++ [e1], op :: opsT, .cons c1 compsT)
      | some operator =>
        match get_bin_op ctx operator r_operand l_operand with
        | .error e1 =>
          (.error (e1, line, col), errs1, op :: opsT, .cons c1 compsT)
        | .ok operation =>
          if operation.is_supported then
            match visitCmpLoop ctx c1.pos.line c1.pos.col r_operand opsT compsT
              (.typeV operation.result) errs1 with
            | (res, errs2, opsT1, compsT1) =>
              (res, errs2, BinSlot.resolved operation :: opsT1, .cons c1 compsT1)
          else
            let e1 := CompilerError.notSupportedOperation line col (.oper operator)
            (.error (.comp e1, line, col), errs1 ++ [e1], op :: opsT, .cons c1 compsT)

/-- The loop of `visit_BoolOp` over the operands after the first.  The
first successfully resolved operation is recorded (`bool_operation`,
`return_type`); later pairs are still resolved but never re-recorded.  As
in the compare loop, the error outcome carries the coordinates current at
raise time. -/
def visitBoolLoop (ctx : Ctx) (operator : Operator) (line col : Nat)
    (l_operand : Value) (vals : ExprList) (bool_operation : Option BuiltBinOp)
    (return_type : Value) (errs : Errors) :
    Except (Raised × Nat × Nat) (Option BuiltBinOp × Value) × Errors × ExprList :=
  match vals with
  | .nil => (.ok (bool_operation, return_type), errs, .nil)
  | .cons v vsT =>
    match visitExpr ctx v errs with
    | (.error e1, errs1, v1) =>
      (.error (e1, line, col), errs1, .cons v1 vsT)
    | (.ok r_operand, errs1, v1) =>
      match get_bin_op ctx operator r_operand l_operand with
      | .error e1 => (.error (e1, line, col), errs1, .cons v1 vsT)
      | .ok operation =>
        let recorded := match bool_operation with
          | none => (some operation, Value.typeV operation.result)
          | some b => (some b, return_type)
        match visitBoolLoop ctx operator v1.pos.line v1.pos.col r_operand vsT
          recorded.1 recorded.2 errs1 with
        | (res, errs2, vsT1) => (res, errs2, .cons v1 vsT1)
end

end Boa3

namespace Boa3

/-- The statements the analyser handles at statement granularity inside
module and function bodies. -/
inductive Stmt where
  | ret (p : Pos) (value : Option Expr)
  | assign (p : Pos) (targets : ExprList) (value : Expr)
deriving Repr

/-- A formal argument (`ast.arg`): name and optional annotation node. -/
structure Arg where
  p : Pos
  nameA : String
  annotation : Option Expr
deriving Repr

/-- A function definition (`ast.FunctionDef`): name, arguments, body.
Nested function definitions are not part of the accepted subset. -/
structure FunctionDef where
  p : Pos
  nameF : String
  args : List Arg
  body : List Stmt
deriving Repr

/-- A top-level item of a module body. -/
inductive ModItem where
  | func (f : FunctionDef)
  | stmtI (s : Stmt)
deriving Repr

/-- A module AST: the list of its top-level items. -/
abbrev ModuleAst := List ModItem

/-- `TypeAnalyser.visit_Return` and `visit_Assign`, dispatched like the
statement part of `visit`.  `visit_Return` reads the current method's
declared return type (an `AttributeError` when there is no current
method); `visit_Assign` rejects multi-target and tuple-target assignments
and otherwise generic-visits the target and the value. -/
def visitStmt (ctx : Ctx) (s : Stmt) (errs : Errors) :
    Except Raised Unit × Errors × Stmt :=
  match s with
  | .ret p value =>
    match ctx.current_method with
    | none => (.error (.fatal "AttributeError"), errs, .ret p value)
    | some m =>
      match value with
      | some v =>
        match v with
        | .tupleE pt elts =>
          -- multiple returns are not allowed
          let e1 := CompilerError.tooManyReturns p.line p.col
          (.error (.comp e1), errs ++ [e1], .ret p (some (.tupleE pt elts)))
        | _ =>
          if m.return_type == IType.noneT then
            -- returning something, but no type hint for the return
            let e1 := CompilerError.typeHintMissing p.line p.col (current_method_id ctx)
            (.error (.comp e1), errs ++ [e1], .ret p (some v))
          else
            -- TODO in the source: the type of the returned value is not
            -- compared against the hint; generic_visit walks the value.
            match visitExpr ctx v errs with
            | (.ok _, errs1, v1) => (.ok (), errs1, .ret p (some v1))
            | (.error e1, errs1, v1) => (.error e1, errs1, .ret p (some v1))
      | none =>
        if m.return_type != IType.noneT then
          -- the return is None, but the hinted type is not None
          let e1 := CompilerError.mismatchedTypes p.line p.col
            m.return_type.identifier IType.noneT.identifier
          (.error (.comp e1), errs ++ [e1], .ret p none)
        else
          (.ok (), errs, .ret p none)
  | .assign p targets value =>
    if targets.length > 1 then
      let e1 := CompilerError.notSupportedOperation p.line p.col
        (.text "Multiple variable assignments")
      (.error (.comp e1), errs ++ [e1], .assign p targets value)
    else
      match targets with
      | .nil => (.error (.fatal "IndexError"), errs, .assign p .nil value)
      | .cons t ts =>
        match t with
        | .tupleE pt elts =>
          let e1 := CompilerError.notSupportedOperation p.line p.col
            (.text "Multiple variable assignments")
          (.error (.comp e1), errs ++ [e1], .assign p (.cons (.tupleE pt elts) ts) value)
        | _ =>
          -- generic_visit(assign): the target field is walked, then the
          -- value field.
          match visitExpr ctx t errs with
          | (.error e1, errs1, t1) => (.error e1, errs1, .assign p (.cons t1 ts) value)
          | (.ok _, errs1, t1) =>
            match visitExpr ctx value errs1 with
            | (.ok _, errs2, value1) => (.ok (), errs2, .assign p (.cons t1 ts) value1)
            | (.error e1, errs2, value1) => (.error e1, errs2, .assign p (.cons t1 ts) value1)

/-- `TypeAnalyser.visit_arg`: a missing annotation logs `TypeHintMissing`
with the argument's name and raises; otherwise generic_visit walks the
annotation node. -/
def visitArg (ctx : Ctx) (a : Arg) (errs : Errors) :
    Except Raised Unit × Errors × Arg :=
  match a.annotation with
  | none =>
    let e1 := CompilerError.typeHintMissing a.p.line a.p.col (some a.nameA)
    (.error (.comp e1), errs ++ [e1], a)
  | some ann =>
    match visitExpr ctx ann errs with
    | (.ok _, errs1, ann1) => (.ok (), errs1, { a with annotation := some ann1 })
    | (.error e1, errs1, ann1) => (.error e1, errs1, { a with annotation := some ann1 })

/-- One pass of `visit_arguments` over the argument list. -/
def visitArgList (ctx : Ctx) (args : List Arg) (errs : Errors) :
    Except Raised Unit × Errors × List Arg :=
  match args with
  | [] => (.ok (), errs, [])
  | a :: rest =>
    match visitArg ctx a errs with
    | (.error e1, errs1, a1) => (.error e1, errs1, a1 :: rest)
    | (.ok _, errs1, a1) =>
      match visitArgList ctx rest errs1 with
      | (r, errs2, rest1) => (r, errs2, a1 :: rest1)

/-- `TypeAnalyser.visit_arguments`: visits each argument, then
`generic_visit(arguments)` walks the argument child nodes a second
time. -/
def visitArguments (ctx : Ctx) (args : List Arg) (errs : Errors) :
    Except Raised Unit × Errors × List Arg :=
  match visitArgList ctx args errs with
  | (.error e1, errs1, args1) => (.error e1, errs1, args1)
  | (.ok _, errs1, args1) => visitArgList ctx args1 errs1

/-- The statement-list walk shared by `visit_Module` and
`visit_FunctionDef` bodies: statements are visited in order; a raised
error propagates, leaving the remaining statements unvisited. -/
def visitStmts (ctx : Ctx) (stmts : List Stmt) (errs : Errors) :
    Except Raised Unit × Errors × List Stmt :=
  match stmts with
  | [] => (.ok (), errs, [])
  | s :: rest =>
    match visitStmt ctx s errs with
    | (.error e1, errs1, s1) => (.error e1, errs1, s1 :: rest)
    | (.ok _, errs1, s1) =>
      match visitStmts ctx rest errs1 with
      | (r, errs2, rest1) => (r, errs2, s1 :: rest1)

/-- `TypeAnalyser.visit_FunctionDef`: walk the argument list (with
`current_method` still unset), look the method up in the global symbol
map (a `KeyError` when absent; the source assigns whatever symbol it
finds, which later dereferences fail on when it is not a method), walk the
body with `current_method` set, then clear it. -/
def visitFuncDef (ctx : Ctx) (f : FunctionDef) (errs : Errors) :
    Except Raised Unit × Errors × FunctionDef :=
  match visitArguments ctx f.args errs with
  | (.error e1, errs1, args1) => (.error e1, errs1, { f with args := args1 })
  | (.ok _, errs1, args1) =>
    match ctx.symbols.lookup f.nameF with
    | none => (.error (.fatal "KeyError"), errs1, { f with args := args1 })
    | some (.methodS m) =>
      match visitStmts { ctx with current_method := some m } f.body errs1 with
      | (r, errs2, body1) => (r, errs2, { f with args := args1, body := body1 })
    | some _ => (.error (.fatal "TypeError"), errs1, { f with args := args1 })

/-- Dispatch over a top-level item. -/
def visitModItem (ctx : Ctx) (it : ModItem) (errs : Errors) :
    Except Raised Unit × Errors × ModItem :=
  match it with
  | .func f =>
    match visitFuncDef ctx f errs with
    | (r, errs1, f1) => (r, errs1, .func f1)
  | .stmtI s =>
    match visitStmt ctx s errs with
    | (r, errs1, s1) => (r, errs1, .stmtI s1)

/-- `TypeAnalyser.visit_Module`: walk each top-level item in order; a
raised error propagates out of the loop, so the remaining items are never
visited. -/
def visitModule (ctx : Ctx) (items : ModuleAst) (errs : Errors) :
    Except Raised Unit × Errors × ModuleAst :=
  match items with
  | [] => (.ok (), errs, [])
  | it :: rest =>
    match visitModItem ctx it errs with
    | (.error e1, errs1, it1) => (.error e1, errs1, it1 :: rest)
    | (.ok _, errs1, it1) =>
      match visitModule ctx rest errs1 with
      | (r, errs2, rest1) => (r, errs2, it1 :: rest1)

/-- The whole analysis run `TypeAnalyser.__init__` performs: empty error
list and empty modules map, `current_method` unset, then `visit(tree)`.
The raised first error, the accumulated diagnostics, and the (partially)
rewritten AST are all returned. -/
def analyse (symbol_table : List (String × Symbol)) (m : ModuleAst) :
    Except Raised Unit × Errors × ModuleAst :=
  visitModule { current_method := none, modules := [], symbols := symbol_table } m []

/-- The proposition that visiting each expression of a list in order
returns a value without raising and without touching the error list,
producing the given visit results and rewritten nodes.  Used to state
claims about operator chains whose operand walks succeed. -/
def OkSeq (ctx : Ctx) (errs : Errors) : ExprList → List Value → ExprList → Prop
  | .nil, [], .nil => True
  | .cons e t, w :: ws, .cons e1 t1 =>
    visitExpr ctx e errs = (.ok w, errs, e1) ∧ OkSeq ctx errs t ws t1
  | _, _, _ => False

/-- The proposition that every adjacent pair of a boolean-operation chain
resolves to an operation: starting from the first operand's value, each
following value resolves `get_bin_op` with the previous one to the listed
operation. -/
def ResolvesChain (ctx : Ctx) (operator : Operator) :
    Value → List Value → List BuiltBinOp → Prop
  | _, [], [] => True
  | l, r :: rs, o :: os =>
    get_bin_op ctx operator r l = .ok o ∧ ResolvesChain ctx operator r rs os
  | _, _, _ => False

end Boa3

namespace Boa3

mutual
/-- The depth-first, left-to-right walk order over expression nodes that
the ordering claim refers to: a node is listed before its children, and
children are listed left to right (left operand before right operand,
earlier sibling before later).  This definition follows the spec's wording
of the ordering contract, to be compared with the order in which the
analyser actually appends diagnostics. -/
def walkOrderExpr : Expr → List Pos
  | .num p _ => [p]
  | .strL p _ => [p]
  | .nameConst p _ => [p]
  | .name p _ => [p]
  | .tupleE p elts => p :: walkOrderList elts
  | .binOp p _ l r => p :: (walkOrderExpr l ++ walkOrderExpr r)
  | .unaryOp p _ o => p :: walkOrderExpr o
  | .compare p l _ comps => p :: (walkOrderExpr l ++ walkOrderList comps)
  | .boolOp p _ vs => p :: walkOrderList vs

/-- Walk order of a sibling list of expressions, left to right. -/
def walkOrderList : ExprList → List Pos
  | .nil => []
  | .cons e t => walkOrderExpr e ++ walkOrderList t
end

/-- An analyser context with no current method, no modules and no global
symbols, as at the start of a module-level walk. -/
def ctx0 : Ctx := ⟨none, [], []⟩

/-- A module-level statement with a type error in its value expression
(string plus integer), at line 1. -/
def exC1a : Stmt :=
  .assign ⟨1, 0⟩ (.cons (.name ⟨1, 0⟩ "x") .nil)
    (.binOp ⟨1, 4⟩ (.raw .add) (.strL ⟨1, 4⟩ "a") (.num ⟨1, 10⟩ (.int 1)))

/-- A second statement of the same shape, at line 2. -/
def exC1b : Stmt :=
  .assign ⟨2, 0⟩ (.cons (.name ⟨2, 0⟩ "y") .nil)
    (.binOp ⟨2, 4⟩ (.raw .add) (.strL ⟨2, 4⟩ "b") (.num ⟨2, 10⟩ (.int 2)))

/-- A compare expression whose left operand is a type-bad binary
operation: the compare node sits at (3,0), the binary operation at
(3,1). -/
def exC2 : Expr :=
  .compare ⟨3, 0⟩
    (.binOp ⟨3, 1⟩ (.raw .add) (.strL ⟨3, 1⟩ "a") (.num ⟨3, 7⟩ (.int 1)))
    [.raw .ltK] (.cons (.num ⟨3, 12⟩ (.int 2)) .nil)

/-- A compare expression containing exactly one type-incorrect construct
(the string-plus-integer binary operation at (4,1)). -/
def exC3 : Expr :=
  .compare ⟨4, 0⟩
    (.binOp ⟨4, 1⟩ (.raw .add) (.strL ⟨4, 1⟩ "a") (.num ⟨4, 7⟩ (.int 1)))
    [.raw .ltK] (.cons (.num ⟨4, 12⟩ (.int 2)) .nil)

/-- A module with a single well-typed integer addition. -/
def exC8 : ModuleAst :=
  [.stmtI (.assign ⟨1, 0⟩ (.cons (.name ⟨1, 0⟩ "x") .nil)
    (.binOp ⟨1, 4⟩ (.raw .add) (.num ⟨1, 4⟩ (.int 1)) (.num ⟨1, 8⟩ (.int 2))))]

/-- The same module after the first analysis run: the operator slot of the
addition holds the resolved integer addition operation. -/
def exC8rw : ModuleAst :=
  [.stmtI (.assign ⟨1, 0⟩ (.cons (.name ⟨1, 0⟩ "x") .nil)
    (.binOp ⟨1, 4⟩ (.resolved ⟨.addition, .int, .int⟩) (.num ⟨1, 4⟩ (.int 1))
      (.num ⟨1, 8⟩ (.int 2))))]

/-- A method whose locals bind `x` to an integer variable. -/
def mLocal : Method := ⟨[("x", .var .int)], .noneT⟩

/-- A module whose symbols bind `y` to a string variable. -/
def mdX : Module := ⟨[("y", .var .str)]⟩

/-- A context in which `x` is bound in all three scopes: method locals,
the modules map, and the globals. -/
def ctxC4A : Ctx := ⟨some mLocal, [("x", mdX)], [("x", .simple (.var .str))]⟩

/-- A context in which `x` is bound in the modules map and the globals but
not in the current method's locals. -/
def ctxC4B : Ctx := ⟨some ⟨[], .noneT⟩, [("x", mdX)], [("x", .simple (.var .str))]⟩

/-- A context in which `x` is bound only in the globals. -/
def ctxC4C : Ctx := ⟨some ⟨[], .noneT⟩, [], [("x", .simple (.var .str))]⟩

/-- A context in which `x` is bound in no scope. -/
def ctxC4D : Ctx := ⟨some ⟨[], .noneT⟩, [("z", mdX)], [("w", .simple (.var .str))]⟩

/-- A method declaring an integer return type. -/
def mRetInt : Method := ⟨[], .int⟩

/-- A method declaring no return type (`none`). -/
def mRetNone : Method := ⟨[], .noneT⟩

/-- A context inside a method `f` declared to return `int`. -/
def ctxRetInt : Ctx := ⟨some mRetInt, [], [("f", .methodS mRetInt)]⟩

/-- A context inside a method `g` with no declared return type. -/
def ctxRetNone : Ctx := ⟨some mRetNone, [], [("g", .methodS mRetNone)]⟩

theorem relog_append (line col : Nat) (e : Raised) (errs : Errors) :
    ∃ d, (relog_mismatched line col e errs).2 = errs ++ d := by
  cases e with
  | comp ce =>
    cases ce <;> simp [relog_mismatched]
  | fatal m => simp [relog_mismatched]

mutual
theorem visitExpr_append (ctx : Ctx) (e : Expr) (errs : Errors) :
    ∃ d, (visitExpr ctx e errs).2.1 = errs ++ d := by
  cases e with
  | num p n =>
    by_cases h : n.isinstance_int
    · exact ⟨[], by simp [visitExpr, h]⟩
    · exact ⟨[CompilerError.invalidType p.line p.col n.typeName], by simp [visitExpr, h]⟩
  | strL p s => exact ⟨[], by simp [visitExpr]⟩
  | nameConst p v => exact ⟨[], by simp [visitExpr]⟩
  | name p id => exact ⟨[], by simp [visitExpr]⟩
  | tupleE p elts => exact ⟨[], by simp [visitExpr]⟩
  | binOp p slot left right =>
    obtain ⟨d1, h1⟩ := visitExpr_append ctx right errs
    rcases hR : visitExpr ctx right errs with ⟨resR, errsR, rightR⟩
    rw [hR] at h1; simp only at h1; subst h1
    cases resR with
    | error e1 => exact ⟨d1, by simp [visitExpr, hR]⟩
    | ok rv =>
      obtain ⟨d2, h2⟩ := visitExpr_append ctx left (errs ++ d1)
      rcases hL : visitExpr ctx left (errs ++ d1) with ⟨resL, errsL, leftL⟩
      rw [hL] at h2; simp only at h2; subst h2
      cases resL with
      | error e1 => exact ⟨d1 ++ d2, by simp [visitExpr, hR, hL]⟩
      | ok lv =>
        cases hop : get_operator_bin slot with
        | none =>
          exact ⟨d1 ++ d2 ++ [CompilerError.unresolvedReference p.line p.col slot.className],
            by simp [visitExpr, hR, hL, hop]⟩
        | some operator =>
          cases hg : get_bin_op ctx operator rv lv with
          | error e1 =>
            obtain ⟨d3, h3⟩ := relog_append p.line p.col e1 (errs ++ d1 ++ d2)
            rcases hrel : relog_mismatched p.line p.col e1 (errs ++ d1 ++ d2) with ⟨e2, errs3⟩
            rw [hrel] at h3; simp only at h3; subst h3
            simp only [List.append_assoc] at hrel
            exact ⟨d1 ++ d2 ++ d3, by simp [visitExpr, hR, hL, hop, hg, hrel]⟩
          | ok operation =>
            by_cases hs : operation.is_supported
            · exact ⟨d1 ++ d2, by simp [visitExpr, hR, hL, hop, hg, hs]⟩
            · exact ⟨d1 ++ d2 ++ [CompilerError.notSupportedOperation p.line p.col (.oper operator)],
                by simp [visitExpr, hR, hL, hop, hg, hs]⟩
  | unaryOp p slot operand =>
    obtain ⟨d1, h1⟩ := visitExpr_append ctx operand errs
    rcases hO : visitExpr ctx operand errs with ⟨resO, errsO, operand1⟩
    rw [hO] at h1; simp only at h1; subst h1
    cases resO with
    | error e1 => exact ⟨d1, by simp [visitExpr, hO]⟩
    | ok ov =>
      cases hop : get_operator_un slot with
      | none =>
        exact ⟨d1 ++ [CompilerError.unresolvedReference p.line p.col slot.className],
          by simp [visitExpr, hO, hop]⟩
      | some operator =>
        cases hg : get_un_op ctx operator ov with
        | error e1 =>
          obtain ⟨d3, h3⟩ := relog_append p.line p.col e1 (errs ++ d1)
          rcases hrel : relog_mismatched p.line p.col e1 (errs ++ d1) with ⟨e2, errs3⟩
          rw [hrel] at h3; simp only at h3; subst h3
          exact ⟨d1 ++ d3, by simp [visitExpr, hO, hop, hg, hrel]⟩
        | ok operation =>
          by_cases hs : operation.is_supported
          · exact ⟨d1, by simp [visitExpr, hO, hop, hg, hs]⟩
          · exact ⟨d1 ++ [CompilerError.notSupportedOperation p.line p.col (.oper operator)],
              by simp [visitExpr, hO, hop, hg, hs]⟩
  | compare p left ops comparators =>
    by_cases hlen : ops.length != comparators.length
    · exact ⟨[CompilerError.incorrectNumberOfOperands p.line p.col ops.length (comparators.length + 1)],
        by simp [visitExpr, hlen]⟩
    · obtain ⟨d1, h1⟩ := visitExpr_append ctx left errs
      rcases hL : visitExpr ctx left errs with ⟨resL, errsL, left1⟩
      rw [hL] at h1; simp only at h1; subst h1
      cases resL with
      | error e1 =>
        obtain ⟨d3, h3⟩ := relog_append p.line p.col e1 (errs ++ d1)
        rcases hrel : relog_mismatched p.line p.col e1 (errs ++ d1) with ⟨e2, errs3⟩
        rw [hrel] at h3; simp only at h3; subst h3
        exact ⟨d1 ++ d3, by simp [visitExpr, hlen, hL, hrel]⟩
      | ok lv =>
        obtain ⟨d2, h2⟩ := visitCmpLoop_append ctx p.line p.col lv ops comparators (.pyV .noneV) (errs ++ d1)
        rcases hLoop : visitCmpLoop ctx p.line p.col lv ops comparators (.pyV .noneV) (errs ++ d1) with ⟨resLp, errsLp, ops1, comps1⟩
        rw [hLoop] at h2; simp only at h2; subst h2
        cases resLp with
        | ok rt => exact ⟨d1 ++ d2, by simp [visitExpr, hlen, hL, hLoop]⟩
        | error et =>
          rcases et with ⟨e1, lineE, colE⟩
          obtain ⟨d3, h3⟩ := relog_append lineE colE e1 (errs ++ d1 ++ d2)
          rcases hrel : relog_mismatched lineE colE e1 (errs ++ d1 ++ d2) with ⟨e2, errs3⟩
          rw [hrel] at h3; simp only at h3; subst h3
          simp only [List.append_assoc] at hrel
          exact ⟨d1 ++ d2 ++ d3, by simp [visitExpr, hlen, hL, hLoop, hrel]⟩
  | boolOp p slot values =>
    cases hop : get_operator_bool slot with
    | none =>
      exact ⟨[CompilerError.unresolvedReference p.line p.col "NoneType"], by simp [visitExpr, hop]⟩
    | some operator =>
      cases values with
      | nil => exact ⟨[], by simp [visitExpr, hop]⟩
      | cons v0 vs =>
        obtain ⟨d1, h1⟩ := visitExpr_append ctx v0 errs
        rcases hV : visitExpr ctx v0 errs with ⟨resV, errsV, v01⟩
        rw [hV] at h1; simp only at h1; subst h1
        cases resV with
        | error e1 =>
          obtain ⟨d3, h3⟩ := relog_append p.line p.col e1 (errs ++ d1)
          rcases hrel : relog_mismatched p.line p.col e1 (errs ++ d1) with ⟨e2, errs3⟩
          rw [hrel] at h3; simp only at h3; subst h3
          exact ⟨d1 ++ d3, by simp [visitExpr, hop, hV, hrel]⟩
        | ok lv =>
          obtain ⟨d2, h2⟩ := visitBoolLoop_append ctx operator p.line p.col lv vs none (.pyV .noneV) (errs ++ d1)
          rcases hLoop : visitBoolLoop ctx operator p.line p.col lv vs none (.pyV .noneV) (errs ++ d1) with ⟨resLp, errsLp, vs1⟩
          rw [hLoop] at h2; simp only at h2; subst h2
          cases resLp with
          | ok pr => exact ⟨d1 ++ d2, by simp [visitExpr, hop, hV, hLoop]⟩
          | error et =>
            rcases et with ⟨e1, lineE, colE⟩
            obtain ⟨d3, h3⟩ := relog_append lineE colE e1 (errs ++ d1 ++ d2)
            rcases hrel : relog_mismatched lineE colE e1 (errs ++ d1 ++ d2) with ⟨e2, errs3⟩
            rw [hrel] at h3; simp only at h3; subst h3
            simp only [List.append_assoc] at hrel
            exact ⟨d1 ++ d2 ++ d3, by simp [visitExpr, hop, hV, hLoop, hrel]⟩

theorem visitCmpLoop_append (ctx : Ctx) (line col : Nat) (l_operand : Value)
    (ops : List BinSlot) (comps : ExprList) (return_type : Value) (errs : Errors) :
    ∃ d, (visitCmpLoop ctx line col l_operand ops comps return_type errs).2.1 = errs ++ d := by
  cases ops with
  | nil => exact ⟨[], by simp [visitCmpLoop]⟩
  | cons op opsT =>
    cases comps with
    | nil => exact ⟨[], by simp [visitCmpLoop]⟩
    | cons c compsT =>
      obtain ⟨d1, h1⟩ := visitExpr_append ctx c errs
      rcases hC : visitExpr ctx c errs with ⟨resC, errsC, c1⟩
      rw [hC] at h1; simp only at h1; subst h1
      cases resC with
      | error e1 => exact ⟨d1, by simp [visitCmpLoop, hC]⟩
      | ok rv =>
        cases hop : get_operator_bin op with
        | none =>
          exact ⟨d1 ++ [CompilerError.unresolvedReference line col op.className],
            by simp [visitCmpLoop, hC, hop]⟩
        | some operator =>
          cases hg : get_bin_op ctx operator rv l_operand with
          | error e1 => exact ⟨d1, by simp [visitCmpLoop, hC, hop, hg]⟩
          | ok operation =>
            by_cases hs : operation.is_supported
            · obtain ⟨d2, h2⟩ := visitCmpLoop_append ctx c1.pos.line c1.pos.col rv opsT compsT (.typeV operation.result) (errs ++ d1)
              rcases hLoop : visitCmpLoop ctx c1.pos.line c1.pos.col rv opsT compsT (.typeV operation.result) (errs ++ d1) with ⟨resLp, errsLp, opsT1, compsT1⟩
              rw [hLoop] at h2; simp only at h2; subst h2
              exact ⟨d1 ++ d2, by simp [visitCmpLoop, hC, hop, hg, hs, hLoop]⟩
            · exact ⟨d1 ++ [CompilerError.notSupportedOperation line col (.oper operator)],
                by simp [visitCmpLoop, hC, hop, hg, hs]⟩

theorem visitBoolLoop_append (ctx : Ctx) (operator : Operator) (line col : Nat)
    (l_operand : Value) (vals : ExprList) (bool_operation : Option BuiltBinOp)
    (return_type : Value) (errs : Errors) :
    ∃ d, (visitBoolLoop ctx operator line col l_operand vals bool_operation return_type errs).2.1 = errs ++ d := by
  cases vals with
  | nil => exact ⟨[], by simp [visitBoolLoop]⟩
  | cons v vsT =>
    obtain ⟨d1, h1⟩ := visitExpr_append ctx v errs
    rcases hV : visitExpr ctx v errs with ⟨resV, errsV, v1⟩
    rw [hV] at h1; simp only at h1; subst h1
    cases resV with
    | error e1 => exact ⟨d1, by simp [visitBoolLoop, hV]⟩
    | ok rv =>
      cases hg : get_bin_op ctx operator rv l_operand with
      | error e1 => exact ⟨d1, by simp [visitBoolLoop, hV, hg]⟩
      | ok operation =>
        cases bool_operation with
        | none =>
          obtain ⟨d2, h2⟩ := visitBoolLoop_append ctx operator v1.pos.line v1.pos.col rv vsT (some operation) (Value.typeV operation.result) (errs ++ d1)
          rcases hLoop : visitBoolLoop ctx operator v1.pos.line v1.pos.col rv vsT (some operation) (Value.typeV operation.result) (errs ++ d1) with ⟨resLp, errsLp, vsT1⟩
          rw [hLoop] at h2; simp only at h2; subst h2
          exact ⟨d1 ++ d2, by simp [visitBoolLoop, hV, hg, hLoop]⟩
        | some b =>
          obtain ⟨d2, h2⟩ := visitBoolLoop_append ctx operator v1.pos.line v1.pos.col rv vsT (some b) return_type (errs ++ d1)
          rcases hLoop : visitBoolLoop ctx operator v1.pos.line v1.pos.col rv vsT (some b) return_type (errs ++ d1) with ⟨resLp, errsLp, vsT1⟩
          rw [hLoop] at h2; simp only at h2; subst h2
          exact ⟨d1 ++ d2, by simp [visitBoolLoop, hV, hg, hLoop]⟩
end

end Boa3

namespace Boa3

theorem natToBytesLE_lt (n : Nat) (h : n < 256) : Integer.natToBytesLE n = [n] := by
  unfold Integer.natToBytesLE
  simp [h]

theorem to_byte_array_byte (n : Int) (h0 : 0 ≤ n) (h1 : n < 256) :
    Integer.to_byte_array n = [n.toNat] := by
  unfold Integer.to_byte_array
  rw [if_neg (by omega)]
  exact natToBytesLE_lt _ (by omega)

/-- C10: for every integer `n` with `-1 <= n <= 16`, `get_literal_push n`
is the one-byte opcode whose byte value is `0x10 + n` (`PUSHM1` for `-1`,
`PUSH0` for `0`, up to `PUSH16` for `16`); for every `n` outside that
range it is `None`. -/
theorem C10_get_literal_push_range :
    (∀ n : Int, -1 ≤ n → n ≤ 16 →
      Opcode.get_literal_push n = some [(16 + n).toNat]) ∧
    (∀ n : Int, n < -1 → Opcode.get_literal_push n = none) ∧
    (∀ n : Int, 16 < n → Opcode.get_literal_push n = none) ∧
    Opcode.get_literal_push (-1) = some Opcode.PUSHM1 ∧
    Opcode.get_literal_push 0 = some Opcode.PUSH0 ∧
    Opcode.get_literal_push 16 = some Opcode.PUSH16 := by
  have hin : ∀ n : Int, -1 ≤ n → n ≤ 16 →
      Opcode.get_literal_push n = some [(16 + n).toNat] := by
    intro n h1 h2
    have hif : (-1 ≤ n ∧ n ≤ 16) := ⟨h1, h2⟩
    simp only [Opcode.get_literal_push, if_pos hif]
    rw [show Integer.from_bytes Opcode.PUSH0 = (16 : Int) from rfl]
    rw [to_byte_array_byte (16 + n) (by omega) (by omega)]
    interval_cases n <;> decide
  refine ⟨hin, ?_, ?_, ?_, ?_, ?_⟩
  · intro n h
    simp only [Opcode.get_literal_push]
    rw [if_neg (by omega)]
  · intro n h
    simp only [Opcode.get_literal_push]
    rw [if_neg (by omega)]
  · rw [hin (-1) (by norm_num) (by norm_num)]; decide
  · rw [hin 0 (by norm_num) (by norm_num)]; decide
  · rw [hin 16 (by norm_num) (by norm_num)]; decide

/-- Witness for C10: the theorem applied at the concrete inputs 3 (in
range), 17 and -2 (out of range). -/
theorem C10_witness :
    Opcode.get_literal_push 3 = some [0x13] ∧
    Opcode.get_literal_push 17 = none ∧
    Opcode.get_literal_push (-2) = none := by
  refine ⟨?_, ?_, ?_⟩
  · rw [C10_get_literal_push_range.1 3 (by norm_num) (by norm_num)]; decide
  · exact C10_get_literal_push_range.2.2.1 17 (by norm_num)
  · exact C10_get_literal_push_range.2.1 (-2) (by norm_num)

/-- C9: `IntType.is_type_of v` is true exactly when the runtime class of
`v` is exactly `int`; in particular it is false for booleans although
`isinstance(v, int)` accepts them (booleans subclass integers), and
`IntType.build v` returns the interned integer descriptor exactly when
`is_type_of v` holds, `None` exactly otherwise. -/
theorem C9_inttype_exact_runtime_class :
    (∀ v : PyValue, IntType.is_type_of v = true ↔ ∃ n : Int, v = PyValue.int n) ∧
    IntType.is_type_of (PyValue.bool true) = false ∧
    IntType.is_type_of (PyValue.bool false) = false ∧
    PyValue.isinstance_int (PyValue.bool true) = true ∧
    PyValue.isinstance_int (PyValue.bool false) = true ∧
    (∀ v : PyValue, IntType.build v = some IType.int ↔ IntType.is_type_of v = true) ∧
    (∀ v : PyValue, IntType.build v = none ↔ IntType.is_type_of v = false) := by
  refine ⟨?_, rfl, rfl, rfl, rfl, ?_, ?_⟩ <;>
    intro v <;> cases v <;> simp [IntType.is_type_of, IntType.build]

/-- C4: `get_symbol` searches current-method locals, then the modules map,
then the globals, in that order, returning the first hit without
consulting outer scopes, and `None` when the identifier is in none of the
three. -/
theorem C4_get_symbol_scope_order :
    (∀ (ctx : Ctx) (m : Method) (id : String) (s : SimpleSym),
      ctx.current_method = some m → m.symbols.lookup id = some s →
      get_symbol ctx id = some (.simple s)) ∧
    (∀ (ctx : Ctx) (id : String) (md : Module),
      (ctx.current_method.bind fun m => m.symbols.lookup id) = none →
      ctx.modules.lookup id = some md →
      get_symbol ctx id = some (.moduleS md)) ∧
    (∀ (ctx : Ctx) (id : String) (s : Symbol),
      (ctx.current_method.bind fun m => m.symbols.lookup id) = none →
      ctx.modules.lookup id = none →
      ctx.symbols.lookup id = some s →
      get_symbol ctx id = some s) ∧
    (∀ (ctx : Ctx) (id : String),
      (ctx.current_method.bind fun m => m.symbols.lookup id) = none →
      ctx.modules.lookup id = none →
      ctx.symbols.lookup id = none →
      get_symbol ctx id = none) := by
  refine ⟨?_, ?_, ?_, ?_⟩
  · intro ctx m id s h1 h2
    simp [get_symbol, h1, h2]
  · intro ctx id md h1 h2
    simp [get_symbol, h1, h2]
  · intro ctx id s h1 h2 h3
    simp [get_symbol, h1, h2, h3]
  · intro ctx id h1 h2 h3
    simp [get_symbol, h1, h2, h3]

/-- Witness for C4: in a context binding `x` in all three scopes the local
variable wins; dropping the local binding yields the module entry;
dropping both yields the global; a context binding `x` nowhere yields
`None`. -/
theorem C4_witness :
    get_symbol ctxC4A "x" = some (.simple (.var .int)) ∧
    get_symbol ctxC4B "x" = some (.moduleS mdX) ∧
    get_symbol ctxC4C "x" = some (.simple (.var .str)) ∧
    get_symbol ctxC4D "x" = none :=
  ⟨C4_get_symbol_scope_order.1 ctxC4A mLocal "x" (.var .int) rfl rfl,
   C4_get_symbol_scope_order.2.1 ctxC4B "x" mdX rfl rfl,
   C4_get_symbol_scope_order.2.2.1 ctxC4C "x" (.simple (.var .str)) rfl rfl rfl,
   C4_get_symbol_scope_order.2.2.2 ctxC4D "x" rfl rfl rfl⟩

end Boa3

namespace Boa3

/-- C5: `Concat.validate_type` accepts exactly two string operands, its
result type is then the string type, its `is_supported` flag is false;
hence the analyser on a binary `Plus` whose operands both have string type
logs `NotSupportedOperation(Plus)` (not `MismatchedTypes`) and leaves the
operator slot unrewritten. -/
theorem C5_concat_typed_not_supported :
    (∀ l r : IType, Concat.validate_type l r = true ↔ (l = .str ∧ r = .str)) ∧
    (∀ l r : IType, Concat.validate_type l r = true → Concat.get_result l r = .str) ∧
    Concat.is_supported = false ∧
    (∀ (ctx : Ctx) (p : Pos) (left right left1 right1 : Expr) (lv rv : Value)
       (errs : Errors),
      visitExpr ctx right errs = (.ok rv, errs, right1) →
      visitExpr ctx left errs = (.ok lv, errs, left1) →
      getTypeValue ctx lv = .str →
      getTypeValue ctx rv = .str →
      visitExpr ctx (.binOp p (.raw .add) left right) errs =
        (.error (.comp (.notSupportedOperation p.line p.col (.oper .plus))),
         errs ++ [CompilerError.notSupportedOperation p.line p.col (.oper .plus)],
         .binOp p (.raw .add) left1 right1)) := by
  refine ⟨?_, ?_, rfl, ?_⟩
  · intro l r
    cases l <;> cases r <;> simp [Concat.validate_type, Concat.valid_types]
  · intro l r h
    rw [Concat.get_result, if_pos h]
    rcases ((by
      cases l <;> cases r <;> simp [Concat.validate_type, Concat.valid_types] :
        Concat.validate_type l r = true ↔ (l = IType.str ∧ r = IType.str)).mp h) with ⟨hl, _⟩
    exact hl
  · intro ctx p left right left1 right1 lv rv errs hR hL hlt hrt
    have hg : get_bin_op ctx Operator.plus rv lv = .ok ⟨.concat, .str, .str⟩ := by
      simp [get_bin_op, hlt, hrt, BinaryOp.validate_type, BinaryOp.operations,
        BinOpId.operator, BinOpId.validate, Concat.validate_type, Concat.valid_types,
        Concat.operator]
    simp [visitExpr, hR, hL, hg, get_operator_bin, operators_table,
      BuiltBinOp.is_supported, BinOpId.is_supported, Concat.is_supported]

/-- Witness for C5: the concrete expression `"a" + "b"` in the empty
context produces exactly one `NotSupportedOperation(Plus)` diagnostic and
keeps the syntactic operator slot. -/
theorem C5_witness :
    visitExpr ctx0 (.binOp ⟨9, 0⟩ (.raw .add) (.strL ⟨9, 0⟩ "a") (.strL ⟨9, 6⟩ "b")) [] =
      (.error (.comp (.notSupportedOperation 9 0 (.oper .plus))),
       [CompilerError.notSupportedOperation 9 0 (.oper .plus)],
       .binOp ⟨9, 0⟩ (.raw .add) (.strL ⟨9, 0⟩ "a") (.strL ⟨9, 6⟩ "b")) :=
  C5_concat_typed_not_supported.2.2.2 ctx0 ⟨9, 0⟩ (.strL ⟨9, 0⟩ "a") (.strL ⟨9, 6⟩ "b")
    (.strL ⟨9, 0⟩ "a") (.strL ⟨9, 6⟩ "b") (.pyV (.str "a")) (.pyV (.str "b")) []
    rfl rfl rfl rfl

/-- C6: `visit_Return` inside a method logs `TooManyReturns` for a tuple
value; else `TypeHintMissing` with the method's identifier when a value is
returned and the declared return type is `none`; else `MismatchedTypes`
(expected the declared type, actual `none`) when nothing is returned and
the declared type is not `none`; in the remaining cases it logs nothing
for the return statement itself (only the walk of the returned value). -/
theorem C6_visit_return_cases :
    (∀ (ctx : Ctx) (m : Method) (p pt : Pos) (elts : ExprList) (errs : Errors),
      ctx.current_method = some m →
      visitStmt ctx (.ret p (some (.tupleE pt elts))) errs =
        (.error (.comp (.tooManyReturns p.line p.col)),
         errs ++ [CompilerError.tooManyReturns p.line p.col],
         .ret p (some (.tupleE pt elts)))) ∧
    (∀ (ctx : Ctx) (m : Method) (p : Pos) (v : Expr) (errs : Errors),
      ctx.current_method = some m →
      (∀ pt elts, v ≠ .tupleE pt elts) →
      m.return_type = .noneT →
      visitStmt ctx (.ret p (some v)) errs =
        (.error (.comp (.typeHintMissing p.line p.col (current_method_id ctx))),
         errs ++ [CompilerError.typeHintMissing p.line p.col (current_method_id ctx)],
         .ret p (some v))) ∧
    (∀ (ctx : Ctx) (m : Method) (p : Pos) (errs : Errors),
      ctx.current_method = some m →
      m.return_type ≠ .noneT →
      visitStmt ctx (.ret p none) errs =
        (.error (.comp (.mismatchedTypes p.line p.col m.return_type.identifier "none")),
         errs ++ [CompilerError.mismatchedTypes p.line p.col m.return_type.identifier "none"],
         .ret p none)) ∧
    (∀ (ctx : Ctx) (m : Method) (p : Pos) (v : Expr) (errs : Errors),
      ctx.current_method = some m →
      (∀ pt elts, v ≠ .tupleE pt elts) →
      m.return_type ≠ .noneT →
      visitStmt ctx (.ret p (some v)) errs =
        (match visitExpr ctx v errs with
         | (.ok _, errs1, v1) => (.ok (), errs1, .ret p (some v1))
         | (.error e1, errs1, v1) => (.error e1, errs1, .ret p (some v1)))) ∧
    (∀ (ctx : Ctx) (m : Method) (p : Pos) (errs : Errors),
      ctx.current_method = some m →
      m.return_type = .noneT →
      visitStmt ctx (.ret p none) errs = (.ok (), errs, .ret p none)) := by
  refine ⟨?_, ?_, ?_, ?_, ?_⟩
  · intro ctx m p pt elts errs h1
    simp [visitStmt, h1]
  · intro ctx m p v errs h1 h2 h3
    cases v with
    | tupleE pt elts => exact absurd rfl (h2 pt elts)
    | _ => simp [visitStmt, h1, h3]
  · intro ctx m p errs h1 h2
    have h3 : (m.return_type == IType.noneT) = false := by
      simp [h2]
    simp [visitStmt, h1, h3, IType.identifier, h2]
  · intro ctx m p v errs h1 h2 h3
    have h4 : (m.return_type == IType.noneT) = false := by
      simp [h3]
    cases v with
    | tupleE pt elts => exact absurd rfl (h2 pt elts)
    | _ => simp [visitStmt, h1, h4]
  · intro ctx m p errs h1 h2
    simp [visitStmt, h1, h2]

/-- Witness for C6: the four shapes at concrete inputs: `return (1, 2)`
inside a method, `return 1` inside a method with no declared return type,
bare `return` inside a method declared to return `int`, and the two
accepting shapes. -/
theorem C6_witness :
    visitStmt ctxRetInt
      (.ret ⟨5, 2⟩ (some (.tupleE ⟨5, 9⟩ (.cons (.num ⟨5, 9⟩ (.int 1)) .nil)))) [] =
      (.error (.comp (.tooManyReturns 5 2)), [CompilerError.tooManyReturns 5 2],
       .ret ⟨5, 2⟩ (some (.tupleE ⟨5, 9⟩ (.cons (.num ⟨5, 9⟩ (.int 1)) .nil)))) ∧
    visitStmt ctxRetNone (.ret ⟨6, 2⟩ (some (.num ⟨6, 9⟩ (.int 1)))) [] =
      (.error (.comp (.typeHintMissing 6 2 (some "g"))),
       [CompilerError.typeHintMissing 6 2 (some "g")],
       .ret ⟨6, 2⟩ (some (.num ⟨6, 9⟩ (.int 1)))) ∧
    visitStmt ctxRetInt (.ret ⟨7, 2⟩ none) [] =
      (.error (.comp (.mismatchedTypes 7 2 "int" "none")),
       [CompilerError.mismatchedTypes 7 2 "int" "none"],
       .ret ⟨7, 2⟩ none) ∧
    visitStmt ctxRetInt (.ret ⟨8, 2⟩ (some (.num ⟨8, 9⟩ (.int 1)))) [] =
      (.ok (), [], .ret ⟨8, 2⟩ (some (.num ⟨8, 9⟩ (.int 1)))) ∧
    visitStmt ctxRetNone (.ret ⟨9, 2⟩ none) [] = (.ok (), [], .ret ⟨9, 2⟩ none) := by
  refine ⟨?_, ?_, ?_, ?_, ?_⟩
  · exact C6_visit_return_cases.1 ctxRetInt mRetInt ⟨5, 2⟩ ⟨5, 9⟩
      (.cons (.num ⟨5, 9⟩ (.int 1)) .nil) [] rfl
  · have h := C6_visit_return_cases.2.1 ctxRetNone mRetNone ⟨6, 2⟩
      (.num ⟨6, 9⟩ (.int 1)) [] rfl (by intro pt elts h; cases h) rfl
    simpa using h
  · have h := C6_visit_return_cases.2.2.1 ctxRetInt mRetInt ⟨7, 2⟩ [] rfl (by decide)
    simpa using h
  · have h := C6_visit_return_cases.2.2.2.1 ctxRetInt mRetInt ⟨8, 2⟩
      (.num ⟨8, 9⟩ (.int 1)) [] rfl (by intro pt elts h; cases h) (by decide)
    simpa using h
  · exact C6_visit_return_cases.2.2.2.2 ctxRetNone mRetNone ⟨9, 2⟩ [] rfl rfl

end Boa3

namespace Boa3

theorem visitStmt_ret_nontuple (ctx : Ctx) (m : Method) (p : Pos) (v : Expr)
    (errs : Errors) (hcm : ctx.current_method = some m)
    (hnt : ∀ pt elts, v ≠ Expr.tupleE pt elts) :
    visitStmt ctx (.ret p (some v)) errs =
      (if m.return_type == IType.noneT then
        (.error (.comp (.typeHintMissing p.line p.col (current_method_id ctx))),
         errs ++ [CompilerError.typeHintMissing p.line p.col (current_method_id ctx)],
         .ret p (some v))
      else
        match visitExpr ctx v errs with
        | (.ok _, errs1, v1) => (.ok (), errs1, .ret p (some v1))
        | (.error e1, errs1, v1) => (.error e1, errs1, .ret p (some v1))) := by
  cases v with
  | tupleE pt elts => exact absurd rfl (hnt pt elts)
  | _ => simp [visitStmt, hcm]

theorem visitStmt_assign_nontuple (ctx : Ctx) (p : Pos) (t : Expr) (ts : ExprList)
    (value : Expr) (errs : Errors)
    (hlen : ¬((ExprList.cons t ts).length > 1))
    (hnt : ∀ pt elts, t ≠ Expr.tupleE pt elts) :
    visitStmt ctx (.assign p (.cons t ts) value) errs =
      (match visitExpr ctx t errs with
       | (.error e1, errs1, t1) => (.error e1, errs1, .assign p (.cons t1 ts) value)
       | (.ok _, errs1, t1) =>
         match visitExpr ctx value errs1 with
         | (.ok _, errs2, value1) => (.ok (), errs2, .assign p (.cons t1 ts) value1)
         | (.error e1, errs2, value1) => (.error e1, errs2, .assign p (.cons t1 ts) value1)) := by
  cases t with
  | tupleE pt elts => exact absurd rfl (hnt pt elts)
  | _ => simp [visitStmt, hlen]

theorem visitStmt_ret_value_append (ctx : Ctx) (m : Method) (p : Pos) (v : Expr)
    (errs : Errors) (hcm : ctx.current_method = some m)
    (hnt : ∀ pt elts, v ≠ Expr.tupleE pt elts) :
    ∃ d, (visitStmt ctx (.ret p (some v)) errs).2.1 = errs ++ d := by
  rw [visitStmt_ret_nontuple ctx m p v errs hcm hnt]
  by_cases h : m.return_type == IType.noneT
  · exact ⟨[CompilerError.typeHintMissing p.line p.col (current_method_id ctx)], by simp [h]⟩
  · obtain ⟨d1, h1⟩ := visitExpr_append ctx v errs
    rcases hV : visitExpr ctx v errs with ⟨resV, errsV, v1⟩
    rw [hV] at h1; simp only at h1; subst h1
    cases resV with
    | ok u => exact ⟨d1, by simp [h, hV]⟩
    | error e1 => exact ⟨d1, by simp [h, hV]⟩

theorem visitStmt_assign_value_append (ctx : Ctx) (p : Pos) (t : Expr)
    (ts : ExprList) (value : Expr) (errs : Errors)
    (hlen : ¬((ExprList.cons t ts).length > 1))
    (hnt : ∀ pt elts, t ≠ Expr.tupleE pt elts) :
    ∃ d, (visitStmt ctx (.assign p (.cons t ts) value) errs).2.1 = errs ++ d := by
  rw [visitStmt_assign_nontuple ctx p t ts value errs hlen hnt]
  obtain ⟨d1, h1⟩ := visitExpr_append ctx t errs
  rcases hT : visitExpr ctx t errs with ⟨resT, errsT, t1⟩
  rw [hT] at h1; simp only at h1; subst h1
  cases resT with
  | error e1 => exact ⟨d1, by simp [hT]⟩
  | ok u =>
    obtain ⟨d2, h2⟩ := visitExpr_append ctx value (errs ++ d1)
    rcases hV : visitExpr ctx value (errs ++ d1) with ⟨resV, errsV, value1⟩
    rw [hV] at h2; simp only at h2; subst h2
    cases resV with
    | ok u2 => exact ⟨d1 ++ d2, by simp [hT, hV]⟩
    | error e1 => exact ⟨d1 ++ d2, by simp [hT, hV]⟩

theorem visitStmt_append (ctx : Ctx) (s : Stmt) (errs : Errors) :
    ∃ d, (visitStmt ctx s errs).2.1 = errs ++ d := by
  cases s with
  | ret p value =>
    cases hcm : ctx.current_method with
    | none => exact ⟨[], by simp [visitStmt, hcm]⟩
    | some m =>
      cases value with
      | some v =>
        cases v with
        | tupleE pt elts =>
          exact ⟨[CompilerError.tooManyReturns p.line p.col], by simp [visitStmt, hcm]⟩
        | _ =>
          exact visitStmt_ret_value_append ctx m p _ errs hcm (by intro pt elts h; cases h)
      | none =>
        by_cases h : m.return_type != IType.noneT
        · exact ⟨[CompilerError.mismatchedTypes p.line p.col m.return_type.identifier
            IType.noneT.identifier], by simp [visitStmt, hcm, h]⟩
        · exact ⟨[], by simp [visitStmt, hcm, h]⟩
  | assign p targets value =>
    by_cases hlen : targets.length > 1
    · exact ⟨[CompilerError.notSupportedOperation p.line p.col
        (.text "Multiple variable assignments")], by simp [visitStmt, hlen]⟩
    · cases targets with
      | nil => exact ⟨[], by simp [visitStmt, hlen]⟩
      | cons t ts =>
        cases t with
        | tupleE pt elts =>
          exact ⟨[CompilerError.notSupportedOperation p.line p.col
            (.text "Multiple variable assignments")], by simp [visitStmt, hlen]⟩
        | _ =>
          exact visitStmt_assign_value_append ctx p _ ts value errs hlen
            (by intro pt elts h; cases h)

theorem visitArg_append (ctx : Ctx) (a : Arg) (errs : Errors) :
    ∃ d, (visitArg ctx a errs).2.1 = errs ++ d := by
  cases ha : a.annotation with
  | none =>
    exact ⟨[CompilerError.typeHintMissing a.p.line a.p.col (some a.nameA)],
      by simp [visitArg, ha]⟩
  | some ann =>
    obtain ⟨d1, h1⟩ := visitExpr_append ctx ann errs
    rcases hV : visitExpr ctx ann errs with ⟨resV, errsV, ann1⟩
    rw [hV] at h1; simp only at h1; subst h1
    cases resV with
    | ok u => exact ⟨d1, by simp [visitArg, ha, hV]⟩
    | error e1 => exact ⟨d1, by simp [visitArg, ha, hV]⟩

theorem visitArgList_append (ctx : Ctx) (args : List Arg) (errs : Errors) :
    ∃ d, (visitArgList ctx args errs).2.1 = errs ++ d := by
  induction args generalizing errs with
  | nil => exact ⟨[], by simp [visitArgList]⟩
  | cons a rest ih =>
    obtain ⟨d1, h1⟩ := visitArg_append ctx a errs
    rcases hA : visitArg ctx a errs with ⟨resA, errsA, a1⟩
    rw [hA] at h1; simp only at h1; subst h1
    cases resA with
    | error e1 => exact ⟨d1, by simp [visitArgList, hA]⟩
    | ok u =>
      obtain ⟨d2, h2⟩ := ih (errs ++ d1)
      rcases hR : visitArgList ctx rest (errs ++ d1) with ⟨resR, errsR, rest1⟩
      rw [hR] at h2; simp only at h2; subst h2
      exact ⟨d1 ++ d2, by simp [visitArgList, hA, hR]⟩

theorem visitArguments_append (ctx : Ctx) (args : List Arg) (errs : Errors) :
    ∃ d, (visitArguments ctx args errs).2.1 = errs ++ d := by
  obtain ⟨d1, h1⟩ := visitArgList_append ctx args errs
  rcases hA : visitArgList ctx args errs with ⟨resA, errsA, args1⟩
  rw [hA] at h1; simp only at h1; subst h1
  cases resA with
  | error e1 => exact ⟨d1, by simp [visitArguments, hA]⟩
  | ok u =>
    obtain ⟨d2, h2⟩ := visitArgList_append ctx args1 (errs ++ d1)
    rcases hB : visitArgList ctx args1 (errs ++ d1) with ⟨resB, errsB, args2⟩
    rw [hB] at h2; simp only at h2; subst h2
    exact ⟨d1 ++ d2, by simp [visitArguments, hA, hB]⟩

theorem visitStmts_append (ctx : Ctx) (stmts : List Stmt) (errs : Errors) :
    ∃ d, (visitStmts ctx stmts errs).2.1 = errs ++ d := by
  induction stmts generalizing errs with
  | nil => exact ⟨[], by simp [visitStmts]⟩
  | cons s rest ih =>
    obtain ⟨d1, h1⟩ := visitStmt_append ctx s errs
    rcases hS : visitStmt ctx s errs with ⟨resS, errsS, s1⟩
    rw [hS] at h1; simp only at h1; subst h1
    cases resS with
    | error e1 => exact ⟨d1, by simp [visitStmts, hS]⟩
    | ok u =>
      obtain ⟨d2, h2⟩ := ih (errs ++ d1)
      rcases hR : visitStmts ctx rest (errs ++ d1) with ⟨resR, errsR, rest1⟩
      rw [hR] at h2; simp only at h2; subst h2
      exact ⟨d1 ++ d2, by simp [visitStmts, hS, hR]⟩

theorem visitFuncDef_append (ctx : Ctx) (f : FunctionDef) (errs : Errors) :
    ∃ d, (visitFuncDef ctx f errs).2.1 = errs ++ d := by
  obtain ⟨d1, h1⟩ := visitArguments_append ctx f.args errs
  rcases hA : visitArguments ctx f.args errs with ⟨resA, errsA, args1⟩
  rw [hA] at h1; simp only at h1; subst h1
  cases resA with
  | error e1 => exact ⟨d1, by simp [visitFuncDef, hA]⟩
  | ok u =>
    cases hL : ctx.symbols.lookup f.nameF with
    | none => exact ⟨d1, by simp [visitFuncDef, hA, hL]⟩
    | some sym =>
      cases sym with
      | methodS m =>
        obtain ⟨d2, h2⟩ := visitStmts_append { ctx with current_method := some m }
          f.body (errs ++ d1)
        rcases hB : visitStmts { ctx with current_method := some m } f.body (errs ++ d1)
          with ⟨resB, errsB, body1⟩
        rw [hB] at h2; simp only at h2; subst h2
        exact ⟨d1 ++ d2, by simp [visitFuncDef, hA, hL, hB]⟩
      | simple s => exact ⟨d1, by simp [visitFuncDef, hA, hL]⟩
      | moduleS md => exact ⟨d1, by simp [visitFuncDef, hA, hL]⟩

theorem visitModItem_append (ctx : Ctx) (it : ModItem) (errs : Errors) :
    ∃ d, (visitModItem ctx it errs).2.1 = errs ++ d := by
  cases it with
  | func f =>
    obtain ⟨d1, h1⟩ := visitFuncDef_append ctx f errs
    rcases hF : visitFuncDef ctx f errs with ⟨resF, errsF, f1⟩
    rw [hF] at h1; simp only at h1; subst h1
    exact ⟨d1, by simp [visitModItem, hF]⟩
  | stmtI s =>
    obtain ⟨d1, h1⟩ := visitStmt_append ctx s errs
    rcases hS : visitStmt ctx s errs with ⟨resS, errsS, s1⟩
    rw [hS] at h1; simp only at h1; subst h1
    exact ⟨d1, by simp [visitModItem, hS]⟩

theorem visitModule_append (ctx : Ctx) (items : ModuleAst) (errs : Errors) :
    ∃ d, (visitModule ctx items errs).2.1 = errs ++ d := by
  induction items generalizing errs with
  | nil => exact ⟨[], by simp [visitModule]⟩
  | cons it rest ih =>
    obtain ⟨d1, h1⟩ := visitModItem_append ctx it errs
    rcases hI : visitModItem ctx it errs with ⟨resI, errsI, it1⟩
    rw [hI] at h1; simp only at h1; subst h1
    cases resI with
    | error e1 => exact ⟨d1, by simp [visitModule, hI]⟩
    | ok u =>
      obtain ⟨d2, h2⟩ := ih (errs ++ d1)
      rcases hR : visitModule ctx rest (errs ++ d1) with ⟨resR, errsR, rest1⟩
      rw [hR] at h2; simp only at h2; subst h2
      exact ⟨d1 ++ d2, by simp [visitModule, hI, hR]⟩

end Boa3

namespace Boa3

/-- C1 counterexample: a module whose two top-level statements each
contain a type error produces only the first statement's diagnostic and
propagates the raised error, although the second statement, analysed
alone, produces its own diagnostic — analysis does not resume at the next
sibling statement. -/
theorem C1_counterexample :
    (analyse [] [.stmtI exC1a, .stmtI exC1b]).2.1 =
      [CompilerError.mismatchedTypes 1 4 (fmt_pair "int" "int") (fmt_pair "str" "int")] ∧
    (analyse [] [.stmtI exC1b]).2.1 =
      [CompilerError.mismatchedTypes 2 4 (fmt_pair "int" "int") (fmt_pair "str" "int")] ∧
    (analyse [] [.stmtI exC1a, .stmtI exC1b]).1 =
      .error (.comp (.mismatchedTypes 1 4 (fmt_pair "int" "int") (fmt_pair "str" "int"))) :=
  ⟨rfl, rfl, rfl⟩

/-- C1 (amended): the first logged error short-circuits the expression and
the raised error propagates out of the whole walk: when the walk of a
statement prefix raises, appending further items changes nothing — the
error, the diagnostics and the rewritten prefix are those of the failing
prefix, and the appended items are returned untouched, unanalysed. -/
theorem C1_first_error_aborts_walk :
    ∀ (ctx : Ctx) (items rest : ModuleAst) (errs errs1 : Errors) (e : Raised)
      (items1 : ModuleAst),
      visitModule ctx items errs = (.error e, errs1, items1) →
      visitModule ctx (items ++ rest) errs = (.error e, errs1, items1 ++ rest) := by
  intro ctx items
  induction items with
  | nil =>
    intro rest errs errs1 e items1 h
    simp [visitModule] at h
  | cons it itemsT ih =>
    intro rest errs errs1 e items1 h
    rcases hIt : visitModItem ctx it errs with ⟨resIt, errsIt, it1⟩
    cases resIt with
    | error e2 =>
      simp only [visitModule, hIt, Prod.mk.injEq, Except.error.injEq] at h
      obtain ⟨he, herrs, hitems⟩ := h
      subst he; subst herrs; subst hitems
      simp [visitModule, hIt]
    | ok u =>
      rcases hRest : visitModule ctx itemsT errsIt with ⟨resR, errsR, itemsR⟩
      simp only [visitModule, hIt, hRest, Prod.mk.injEq] at h
      obtain ⟨h1, h2, h3⟩ := h
      subst h1; subst h2; subst h3
      have hih := ih rest errsIt errsR e itemsR hRest
      simp [visitModule, hIt, hih]

/-- Witness for C1: the abort theorem applied to the failing one-statement
prefix of the C1 counterexample module with a second statement appended. -/
theorem C1_witness :
    visitModule ctx0 ([.stmtI exC1a] ++ [.stmtI exC1b]) [] =
      (.error (.comp (.mismatchedTypes 1 4 (fmt_pair "int" "int") (fmt_pair "str" "int"))),
       [CompilerError.mismatchedTypes 1 4 (fmt_pair "int" "int") (fmt_pair "str" "int")],
       [.stmtI exC1a] ++ [.stmtI exC1b]) :=
  C1_first_error_aborts_walk ctx0 [.stmtI exC1a] [.stmtI exC1b] []
    [CompilerError.mismatchedTypes 1 4 (fmt_pair "int" "int") (fmt_pair "str" "int")]
    (.comp (.mismatchedTypes 1 4 (fmt_pair "int" "int") (fmt_pair "str" "int")))
    [.stmtI exC1a] rfl

/-- C2 counterexample: in the run over `exC2` the first appended
diagnostic is for the inner binary operation at (3,1) and the second for
the enclosing compare node at (3,0), although the compare node precedes
the binary operation in the depth-first left-to-right walk order — so
diagnostics are not appended in walk order. -/
theorem C2_counterexample :
    (visitExpr ctx0 exC2 []).2.1 =
      [CompilerError.mismatchedTypes 3 1 (fmt_pair "int" "int") (fmt_pair "str" "int"),
       CompilerError.mismatchedTypes 3 0 (fmt_pair "int" "int") (fmt_pair "str" "int")] ∧
    walkOrderExpr exC2 =
      [⟨3, 0⟩, ⟨3, 1⟩, ⟨3, 1⟩, ⟨3, 7⟩, ⟨3, 12⟩] :=
  ⟨rfl, rfl⟩

/-- C2 (amended): diagnostics are appended in the order they are logged —
the error list only ever grows during a walk (expression- and
module-level) — and when an enclosing Compare catches a `MismatchedTypes`
raised inside its operand subtree, its re-logged diagnostic is appended
after the operand subtree's diagnostics, so an ancestor's diagnostic can
follow a descendant's and depth-first pre-order is not respected. -/
theorem C2_diagnostics_append_order :
    (∀ (ctx : Ctx) (e : Expr) (errs : Errors),
      ∃ d, (visitExpr ctx e errs).2.1 = errs ++ d) ∧
    (∀ (ctx : Ctx) (items : ModuleAst) (errs : Errors),
      ∃ d, (visitModule ctx items errs).2.1 = errs ++ d) ∧
    (∀ (ctx : Ctx) (p : Pos) (left : Expr) (ops : List BinSlot)
       (comparators : ExprList) (errs dl : Errors) (a b : Nat)
       (exp act : String) (left1 : Expr),
      ops.length = comparators.length →
      visitExpr ctx left errs =
        (.error (.comp (.mismatchedTypes a b exp act)), errs ++ dl, left1) →
      visitExpr ctx (.compare p left ops comparators) errs =
        (.error (.comp (.mismatchedTypes p.line p.col exp act)),
         (errs ++ dl) ++ [CompilerError.mismatchedTypes p.line p.col exp act],
         .compare p left1 ops comparators)) := by
  refine ⟨visitExpr_append, visitModule_append, ?_⟩
  intro ctx p left ops comparators errs dl a b exp act left1 hlen hL
  have hne : (ops.length != comparators.length) = false := by
    simp [hlen]
  simp [visitExpr, hne, hL, relog_mismatched]

/-- Witness for C2: the ordering theorem applied to the concrete compare
expression `exC2` whose left operand raises a `MismatchedTypes`. -/
theorem C2_witness :
    visitExpr ctx0 exC2 [] =
      (.error (.comp (.mismatchedTypes 3 0 (fmt_pair "int" "int") (fmt_pair "str" "int"))),
       ([] ++ [CompilerError.mismatchedTypes 3 1 (fmt_pair "int" "int") (fmt_pair "str" "int")]) ++
         [CompilerError.mismatchedTypes 3 0 (fmt_pair "int" "int") (fmt_pair "str" "int")],
       .compare ⟨3, 0⟩
         (.binOp ⟨3, 1⟩ (.raw .add) (.strL ⟨3, 1⟩ "a") (.num ⟨3, 7⟩ (.int 1)))
         [.raw .ltK] (.cons (.num ⟨3, 12⟩ (.int 2)) .nil)) :=
  C2_diagnostics_append_order.2.2 ctx0 ⟨3, 0⟩
    (.binOp ⟨3, 1⟩ (.raw .add) (.strL ⟨3, 1⟩ "a") (.num ⟨3, 7⟩ (.int 1)))
    [.raw .ltK] (.cons (.num ⟨3, 12⟩ (.int 2)) .nil) []
    [CompilerError.mismatchedTypes 3 1 (fmt_pair "int" "int") (fmt_pair "str" "int")]
    3 1 (fmt_pair "int" "int") (fmt_pair "str" "int")
    (.binOp ⟨3, 1⟩ (.raw .add) (.strL ⟨3, 1⟩ "a") (.num ⟨3, 7⟩ (.int 1)))
    rfl rfl

/-- C3 counterexample: the expression `exC3` contains exactly one
type-incorrect construct (the string-plus-integer binary operation), yet
two diagnostics are appended: the inner one and the enclosing compare's
re-logged copy. -/
theorem C3_counterexample :
    (visitExpr ctx0 exC3 []).2.1 =
      [CompilerError.mismatchedTypes 4 1 (fmt_pair "int" "int") (fmt_pair "str" "int"),
       CompilerError.mismatchedTypes 4 0 (fmt_pair "int" "int") (fmt_pair "str" "int")] ∧
    ((visitExpr ctx0 exC3 []).2.1).length = 2 :=
  ⟨rfl, rfl⟩

/-- C3 (amended): the error logged for an inner construct is not re-logged
by an enclosing binary or unary operation — the raised error propagates
through them with the error list unchanged — but each enclosing Compare or
BoolOp that catches a raised `MismatchedTypes` from its operand subtree
appends exactly one further diagnostic. -/
theorem C3_no_relogging_except_catchers :
    (∀ (ctx : Ctx) (p : Pos) (slot : BinSlot) (left right : Expr) (errs : Errors)
       (e : Raised) (errs1 : Errors) (right1 : Expr),
      visitExpr ctx right errs = (.error e, errs1, right1) →
      visitExpr ctx (.binOp p slot left right) errs =
        (.error e, errs1, .binOp p slot left right1)) ∧
    (∀ (ctx : Ctx) (p : Pos) (slot : BinSlot) (left right : Expr) (errs : Errors)
       (rv : Value) (errs1 : Errors) (right1 : Expr) (e : Raised) (errs2 : Errors)
       (left1 : Expr),
      visitExpr ctx right errs = (.ok rv, errs1, right1) →
      visitExpr ctx left errs1 = (.error e, errs2, left1) →
      visitExpr ctx (.binOp p slot left right) errs =
        (.error e, errs2, .binOp p slot left1 right1)) ∧
    (∀ (ctx : Ctx) (p : Pos) (slot : UnSlot) (operand : Expr) (errs : Errors)
       (e : Raised) (errs1 : Errors) (operand1 : Expr),
      visitExpr ctx operand errs = (.error e, errs1, operand1) →
      visitExpr ctx (.unaryOp p slot operand) errs =
        (.error e, errs1, .unaryOp p slot operand1)) ∧
    (∀ (ctx : Ctx) (p : Pos) (left : Expr) (ops : List BinSlot)
       (comparators : ExprList) (errs : Errors) (a b : Nat) (exp act : String)
       (errs1 : Errors) (left1 : Expr),
      ops.length = comparators.length →
      visitExpr ctx left errs =
        (.error (.comp (.mismatchedTypes a b exp act)), errs1, left1) →
      visitExpr ctx (.compare p left ops comparators) errs =
        (.error (.comp (.mismatchedTypes p.line p.col exp act)),
         errs1 ++ [CompilerError.mismatchedTypes p.line p.col exp act],
         .compare p left1 ops comparators)) ∧
    (∀ (ctx : Ctx) (p : Pos) (rop : RawOp) (operator : Operator) (v0 : Expr)
       (vs : ExprList) (errs : Errors) (a b : Nat) (exp act : String)
       (errs1 : Errors) (v01 : Expr),
      operators_table rop = some operator →
      visitExpr ctx v0 errs =
        (.error (.comp (.mismatchedTypes a b exp act)), errs1, v01) →
      visitExpr ctx (.boolOp p (.raw rop) (.cons v0 vs)) errs =
        (.error (.comp (.mismatchedTypes p.line p.col exp act)),
         errs1 ++ [CompilerError.mismatchedTypes p.line p.col exp act],
         .boolOp p (.raw rop) (.cons v01 vs))) := by
  refine ⟨?_, ?_, ?_, ?_, ?_⟩
  · intro ctx p slot left right errs e errs1 right1 hR
    simp [visitExpr, hR]
  · intro ctx p slot left right errs rv errs1 right1 e errs2 left1 hR hL
    simp [visitExpr, hR, hL]
  · intro ctx p slot operand errs e errs1 operand1 hO
    simp [visitExpr, hO]
  · intro ctx p left ops comparators errs a b exp act errs1 left1 hlen hL
    have hne : (ops.length != comparators.length) = false := by
      simp [hlen]
    simp [visitExpr, hne, hL, relog_mismatched]
  · intro ctx p rop operator v0 vs errs a b exp act errs1 v01 hop hV
    simp [visitExpr, get_operator_bool, hop, hV, relog_mismatched]

/-- Witness for C3: the parts of the no-relogging theorem applied at
concrete expressions: a binary and a unary operation enclosing a failing
operand propagate its single diagnostic unchanged; a compare and a boolean
operation enclosing the same failing operand each append exactly one
re-logged diagnostic. -/
theorem C3_witness :
    visitExpr ctx0
      (.binOp ⟨5, 0⟩ (.raw .sub)
        (.num ⟨5, 0⟩ (.int 7))
        (.binOp ⟨5, 4⟩ (.raw .add) (.strL ⟨5, 4⟩ "a") (.num ⟨5, 10⟩ (.int 1)))) [] =
      (.error (.comp (.mismatchedTypes 5 4 (fmt_pair "int" "int") (fmt_pair "str" "int"))),
       [CompilerError.mismatchedTypes 5 4 (fmt_pair "int" "int") (fmt_pair "str" "int")],
       .binOp ⟨5, 0⟩ (.raw .sub)
         (.num ⟨5, 0⟩ (.int 7))
         (.binOp ⟨5, 4⟩ (.raw .add) (.strL ⟨5, 4⟩ "a") (.num ⟨5, 10⟩ (.int 1)))) ∧
    visitExpr ctx0
      (.unaryOp ⟨6, 0⟩ (.raw .uSub)
        (.binOp ⟨6, 1⟩ (.raw .add) (.strL ⟨6, 1⟩ "a") (.num ⟨6, 7⟩ (.int 1)))) [] =
      (.error (.comp (.mismatchedTypes 6 1 (fmt_pair "int" "int") (fmt_pair "str" "int"))),
       [CompilerError.mismatchedTypes 6 1 (fmt_pair "int" "int") (fmt_pair "str" "int")],
       .unaryOp ⟨6, 0⟩ (.raw .uSub)
         (.binOp ⟨6, 1⟩ (.raw .add) (.strL ⟨6, 1⟩ "a") (.num ⟨6, 7⟩ (.int 1)))) ∧
    visitExpr ctx0
      (.boolOp ⟨7, 0⟩ (.raw .andK)
        (.cons (.binOp ⟨7, 1⟩ (.raw .add) (.strL ⟨7, 1⟩ "a") (.num ⟨7, 7⟩ (.int 1)))
          (.cons (.nameConst ⟨7, 12⟩ (.bool true)) .nil))) [] =
      (.error (.comp (.mismatchedTypes 7 0 (fmt_pair "int" "int") (fmt_pair "str" "int"))),
       [CompilerError.mismatchedTypes 7 1 (fmt_pair "int" "int") (fmt_pair "str" "int"),
        CompilerError.mismatchedTypes 7 0 (fmt_pair "int" "int") (fmt_pair "str" "int")],
       .boolOp ⟨7, 0⟩ (.raw .andK)
         (.cons (.binOp ⟨7, 1⟩ (.raw .add) (.strL ⟨7, 1⟩ "a") (.num ⟨7, 7⟩ (.int 1)))
           (.cons (.nameConst ⟨7, 12⟩ (.bool true)) .nil))) := by
  refine ⟨?_, ?_, ?_⟩
  · exact C3_no_relogging_except_catchers.1 ctx0 ⟨5, 0⟩ (.raw .sub)
      (.num ⟨5, 0⟩ (.int 7)) _ [] _ _ _ rfl
  · exact C3_no_relogging_except_catchers.2.2.1 ctx0 ⟨6, 0⟩ (.raw .uSub) _ [] _ _ _ rfl
  · have h := C3_no_relogging_except_catchers.2.2.2.2 ctx0 ⟨7, 0⟩ .andK .andOp
      (.binOp ⟨7, 1⟩ (.raw .add) (.strL ⟨7, 1⟩ "a") (.num ⟨7, 7⟩ (.int 1)))
      (.cons (.nameConst ⟨7, 12⟩ (.bool true)) .nil) [] 7 1
      (fmt_pair "int" "int") (fmt_pair "str" "int")
      [CompilerError.mismatchedTypes 7 1 (fmt_pair "int" "int") (fmt_pair "str" "int")]
      (.binOp ⟨7, 1⟩ (.raw .add) (.strL ⟨7, 1⟩ "a") (.num ⟨7, 7⟩ (.int 1)))
      rfl rfl
    simpa using h

/-- C8: analysing a module containing a well-typed integer addition
rewrites the operator slot and logs nothing; re-running the analyser on
the rewritten module is not a no-op — `get_operator` does not recognise
the resolved operation (it is not an `Operator`), so the second run logs
`UnresolvedReference` naming the operation's class and aborts, diverging
from the first run's empty diagnostics. -/
theorem C8_rerun_not_noop :
    analyse [] exC8 = (.ok (), [], exC8rw) ∧
    (analyse [] exC8rw).2.1 = [CompilerError.unresolvedReference 1 4 "Addition"] ∧
    (analyse [] exC8rw).1 = .error (.comp (.unresolvedReference 1 4 "Addition")) :=
  ⟨rfl, rfl, rfl⟩

end Boa3

namespace Boa3

theorem visitBoolLoop_recorded (ctx : Ctx) (operator : Operator)
    (vs : ExprList) (ws : List Value) (vs1 : ExprList) (os : List BuiltBinOp)
    (l : Value) (line col : Nat) (b : BuiltBinOp) (rt : Value) (errs : Errors)
    (hok : OkSeq ctx errs vs ws vs1)
    (hres : ResolvesChain ctx operator l ws os) :
    visitBoolLoop ctx operator line col l vs (some b) rt errs =
      (.ok (some b, rt), errs, vs1) := by
  cases vs with
  | nil =>
    cases ws with
    | nil =>
      cases vs1 with
      | nil => simp [visitBoolLoop]
      | cons _ _ => exact absurd hok (by simp [OkSeq])
    | cons w wsT => exact absurd hok (by simp [OkSeq])
  | cons v vsT =>
    cases ws with
    | nil => exact absurd hok (by simp [OkSeq])
    | cons w wsT =>
      cases vs1 with
      | nil => exact absurd hok (by simp [OkSeq])
      | cons v1 vs1T =>
        obtain ⟨hv, hokT⟩ := hok
        cases os with
        | nil => exact absurd hres (by simp [ResolvesChain])
        | cons o osT =>
          obtain ⟨hg, hresT⟩ := hres
          have hrec := visitBoolLoop_recorded ctx operator vsT wsT vs1T osT w
            v1.pos.line v1.pos.col b rt errs hokT hresT
          simp [visitBoolLoop, hv, hg, hrec]

/-- C7: for a boolean-operation chain whose operand walks succeed and in
which every adjacent pair resolves to an operation, the node's operator
slot is rewritten to the first resolved operation — later pairs are
processed but never re-recorded — and the value returned for the
expression is that first operation's result type. -/
theorem C7_boolop_first_op_recorded :
    ∀ (ctx : Ctx) (p : Pos) (rop : RawOp) (operator : Operator) (v0 : Expr)
      (vs : ExprList) (errs : Errors) (w0 : Value) (v01 : Expr) (ws : List Value)
      (vs1 : ExprList) (o : BuiltBinOp) (os : List BuiltBinOp),
      operators_table rop = some operator →
      visitExpr ctx v0 errs = (.ok w0, errs, v01) →
      OkSeq ctx errs vs ws vs1 →
      ResolvesChain ctx operator w0 ws (o :: os) →
      visitExpr ctx (.boolOp p (.raw rop) (.cons v0 vs)) errs =
        (.ok (.typeV o.result), errs,
         .boolOp p (.resolved (some o)) (.cons v01 vs1)) := by
  intro ctx p rop operator v0 vs errs w0 v01 ws vs1 o os hop hv0 hok hres
  cases ws with
  | nil => exact absurd hres (by simp [ResolvesChain])
  | cons w wsT =>
    cases vs with
    | nil => exact absurd hok (by simp [OkSeq])
    | cons v vsT =>
      cases vs1 with
      | nil => exact absurd hok (by simp [OkSeq])
      | cons v1 vs1T =>
        obtain ⟨hv, hokT⟩ := hok
        obtain ⟨hg, hresT⟩ := hres
        have hrec := visitBoolLoop_recorded ctx operator vsT wsT vs1T os w
          v1.pos.line v1.pos.col o (.typeV o.result) errs hokT hresT
        simp [visitExpr, get_operator_bool, hop, hv0, visitBoolLoop, hv, hg, hrec]

/-- Witness for C7: the chain `True and False and True` resolves every
adjacent pair to the boolean-and operation; the slot records the first
resolved operation and the returned type is its boolean result. -/
theorem C7_witness :
    visitExpr ctx0
      (.boolOp ⟨8, 0⟩ (.raw .andK)
        (.cons (.nameConst ⟨8, 0⟩ (.bool true))
          (.cons (.nameConst ⟨8, 9⟩ (.bool false))
            (.cons (.nameConst ⟨8, 19⟩ (.bool true)) .nil)))) [] =
      (.ok (.typeV .bool), [],
       .boolOp ⟨8, 0⟩ (.resolved (some ⟨.boolAnd, .bool, .bool⟩))
        (.cons (.nameConst ⟨8, 0⟩ (.bool true))
          (.cons (.nameConst ⟨8, 9⟩ (.bool false))
            (.cons (.nameConst ⟨8, 19⟩ (.bool true)) .nil)))) := by
  have h := C7_boolop_first_op_recorded ctx0 ⟨8, 0⟩ .andK .andOp
    (.nameConst ⟨8, 0⟩ (.bool true))
    (.cons (.nameConst ⟨8, 9⟩ (.bool false))
      (.cons (.nameConst ⟨8, 19⟩ (.bool true)) .nil))
    [] (.pyV (.bool true)) (.nameConst ⟨8, 0⟩ (.bool true))
    [.pyV (.bool false), .pyV (.bool true)]
    (.cons (.nameConst ⟨8, 9⟩ (.bool false))
      (.cons (.nameConst ⟨8, 19⟩ (.bool true)) .nil))
    ⟨.boolAnd, .bool, .bool⟩ [⟨.boolAnd, .bool, .bool⟩]
    rfl rfl ⟨rfl, rfl, trivial⟩ ⟨rfl, rfl, trivial⟩
  simpa [BuiltBinOp.result, BinOpId.resultWith] using h

end Boa3
